import Mathlib

/-!
Verification of the dna_vana_proof scoring engine.

This file gives a shallow embedding of the scoring/verification core of the
repository (src/dna_vana_proof/proof.py and src/dna_vana_proof/verify.py) and
proves or refutes the behavioural claims about it.

Modelling conventions:
* Python `float` arithmetic is modelled with exact rationals (ℚ); all the
  numeric code here only adds, multiplies and divides small constants.
* Python strings are Lean `String`s; the repository only handles ASCII data,
  so `str.strip`, `str.upper`, `str.isdigit` are modelled at ASCII scope.
* Fallible code (HTTP round trips, `response.json()`, Python exceptions such
  as `ZeroDivisionError`) is modelled with `Except`/`Option`; the HTTP
  transport itself is out of scope and enters as an abstract oracle reply.
-/

set_option maxRecDepth 16384

namespace DnaVana

/-- Python `str.strip()` whitespace predicate (ASCII whitespace). -/
def pyIsSpace (c : Char) : Bool :=
  c = ' ' || c = '\t' || c = '\n' || c = '\r' || c = '\x0b' || c = '\x0c'

/-- Python `str.strip()`: remove leading and trailing whitespace. -/
def pyStrip (s : String) : String :=
  ⟨((s.data.dropWhile pyIsSpace).reverse.dropWhile pyIsSpace).reverse⟩

/-- Python `str.startswith` (structural, over the character data). -/
def pyStartsWith (s pre : String) : Bool :=
  pre.data.isPrefixOf s.data

/-- Python `s[n:]` for a non-negative `n`. -/
def pyDrop (s : String) (n : ℕ) : String :=
  ⟨s.data.drop n⟩

/-- Python's single-character containment test `c in s`. -/
def charIn (s : String) (c : Char) : Bool :=
  s.data.contains c

/-- Python's substring test `pat in hay` on strings. -/
def strContains (hay pat : String) : Bool :=
  hay.data.tails.any (fun t => pat.data.isPrefixOf t)

/-- Python `s.split(sep)` for a one-character separator: split on every
occurrence, keeping empty fields (so the result is never empty). -/
def splitCharAux (sep : Char) : List Char → List (List Char)
  | [] => [[]]
  | c :: rest =>
    match splitCharAux sep rest with
    | [] => [[c]]
    | g :: gs => if c = sep then [] :: g :: gs else (c :: g) :: gs

def pySplit (s : String) (sep : Char) : List String :=
  (splitCharAux sep s.data).map (fun g => ⟨g⟩)

/-- Python `sep.join(parts)`. -/
def joinSep (sep : String) : List String → String
  | [] => ""
  | [x] => x
  | x :: xs => x ++ sep ++ joinSep sep xs

/-- `TwentyThreeWeFileScorer.header_template` (proof.py lines 16-34): the
triple-quoted template string, reproduced byte for byte (leading newline,
four-space indentation, trailing spaces inside lines, trailing newline and
indent before the closing quotes). -/
def header_template : String :=
  "\n    # This file contains raw genotype data, including data that is not used in 23andMe reports." ++
  "\n    # This data has undergone a general quality review however only a subset of markers have been " ++
  "\n    # individually validated for accuracy. As such, this data is suitable only for research, " ++
  "\n    # educational, and informational use and not for medical or other use." ++
  "\n    # " ++
  "\n    # Below is a text version of your data.  Fields are TAB-separated" ++
  "\n    # Each line corresponds to a single SNP.  For each SNP, we provide its identifier " ++
  "\n    # (an rsid or an internal id), its location on the reference human genome, and the " ++
  "\n    # genotype call oriented with respect to the plus strand on the human reference sequence." ++
  "\n    # We are using reference human assembly build 37 (also known as Annotation Release 104)." ++
  "\n    # Note that it is possible that data downloaded at different times may be different due to ongoing " ++
  "\n    # improvements in our ability to call genotypes. More information about these changes can be found at:" ++
  "\n    #" ++
  "\n    # More information on reference human assembly builds:" ++
  "\n    # https://www.ncbi.nlm.nih.gov/assembly/GCF_000001405.13/" ++
  "\n    #" ++
  "\n    # rsid\tchromosome\tposition\tgenotype" ++
  "\n    "

/-- `TwentyThreeWeFileScorer.valid_genotypes = set("ATCG-ID")` (proof.py line 35). -/
def valid_genotypes : List Char := "ATCG-ID".data

/-- `TwentyThreeWeFileScorer.valid_chromosomes` (proof.py line 36):
the 25 chromosome names `{1..22, X, Y, MT}`. -/
def valid_chromosomes : List String :=
  ((List.range 22).map (fun i => toString (i + 1))) ++ ["X", "Y", "MT"]

/-- The rsid pattern `re.match(r"^(rs|i)\d+$", rsid)` of proof.py line 119
(ASCII digits). -/
def rsid_matches (rsid : String) : Bool :=
  (pyStartsWith rsid "rs" && !((pyDrop rsid 2) == "") && (pyDrop rsid 2).data.all Char.isDigit)
  || (pyStartsWith rsid "i" && !((pyDrop rsid 1) == "") && (pyDrop rsid 1).data.all Char.isDigit)

/-- The header-collecting loop of `TwentyThreeWeFileScorer.read_header`
(proof.py lines 69-79): keep stripped copies of the leading lines that start
with `#` or `rsid`, skipping the two regex-matched dynamic lines, and stop at
the first other line. -/
def read_header_lines : List String → List String
  | [] => []
  | line :: rest =>
    if pyStartsWith line "#" || pyStartsWith line "rsid" then
      if pyStartsWith line "# This data file generated by 23andMe at:" then
        read_header_lines rest
      else if pyStartsWith line "# https://you.23andme.com/p/" then
        read_header_lines rest
      else
        pyStrip line :: read_header_lines rest
    else []

/-- `TwentyThreeWeFileScorer.read_header` (proof.py lines 69-81): note the
`header_lines[1:]` that drops the first collected header line. -/
def read_header (input_data : List String) : String :=
  joinSep "\n" ((read_header_lines input_data).drop 1)

/-- The `clean_template` value of `TwentyThreeWeFileScorer.check_header`
(proof.py lines 86-92): the template, stripped, split in lines, lines
containing `https://you.23andme.com` discarded (no template line does),
each line stripped, rejoined. -/
def clean_template : String :=
  joinSep "\n"
    (((pySplit (pyStrip header_template) '\n').filter
        (fun line => !strContains line "https://you.23andme.com")).map pyStrip)

/-- `TwentyThreeWeFileScorer.check_header` (proof.py lines 83-95). -/
def check_header (input_data : List String) : Bool :=
  clean_template == pyStrip (read_header input_data)

/-- The body-check loop of `TwentyThreeWeFileScorer.check_rsid_lines`
(proof.py lines 97-136), with the `invalid_rows` accumulator made explicit.
A stripped line containing `#` anywhere is skipped; an empty line fails
immediately; a line not splitting into exactly 4 tab fields fails
immediately; rsid/chromosome/genotype violations are accumulated and decide
the final result. -/
def check_rsid_loop :
    List String → List (String × String × String × String) → Bool
  | [], invalid_rows => invalid_rows.isEmpty
  | line :: rest, invalid_rows =>
    let l := pyStrip line
    if charIn l '#' then check_rsid_loop rest invalid_rows
    else if l == "" then false
    else
      match pySplit l '\t' with
      | [rsid, chromosome, position, genotype] =>
        let row := (rsid, chromosome, position, genotype)
        let acc1 := if !rsid_matches rsid then invalid_rows ++ [row] else invalid_rows
        let acc2 := if !valid_chromosomes.contains chromosome then acc1 ++ [row] else acc1
        let acc3 :=
          if genotype.data.any (fun c => !valid_genotypes.contains c) then acc2 ++ [row]
          else acc2
        check_rsid_loop rest acc3
      | _ => false

/-- `TwentyThreeWeFileScorer.check_rsid_lines` (proof.py lines 97-136). -/
def check_rsid_lines (input_data : List String) : Bool :=
  check_rsid_loop input_data []

/-- `TwentyThreeWeFileScorer.proof_of_authenticity` (proof.py lines 306-313). -/
def proof_of_authenticity (input_data : List String) : ℚ :=
  if check_header input_data && check_rsid_lines input_data then 1.0 else 0

/-- `TwentyThreeWeFileScorer.get_profile_id` (proof.py lines 46-67): locate
the URL prefix/suffix markers in the first 50 lines and slice the id between
them; Python's falsy test on the empty slice yields `None`. -/
def findSubAux (pat : List Char) : List Char → ℕ → Option ℕ
  | [], i => if pat.isEmpty then some i else none
  | l@(_ :: rest), i => if pat.isPrefixOf l then some i else findSubAux pat rest (i + 1)

/-- Python `content.find(pat, start)`: least index `≥ start` where `pat`
occurs, as an `Option`. -/
def findSub (content pat : List Char) (start : ℕ) : Option ℕ :=
  findSubAux pat (content.drop start) start

def get_profile_id (input_data : List String) : Option String :=
  let file_content := (joinSep "\n" (input_data.take 50)).data
  let url_prefix := "https://you.23andme.com/p/".data
  let url_suffix := "/tools/data/download/".data
  match findSub file_content url_prefix 0 with
  | none => none
  | some start_index =>
    match findSub file_content url_suffix start_index with
    | none => none
    | some end_index =>
      let profile_id := (file_content.take end_index).drop (start_index + url_prefix.length)
      if profile_id.isEmpty then none else some ⟨profile_id⟩

/-! ### Quality scorer (proof.py lines 189-246, 284-295) -/

/-- `TwentyThreeWeFileScorer.invalid_genotypes_score` (proof.py lines 189-196),
with the default parameters `low = 1`, `high = 5` inlined (all call sites use
the defaults). -/
def invalid_genotypes_score (total : ℕ) : ℚ :=
  if (total : ℚ) ≤ 1 then 1.0
  else if (total : ℚ) ≥ 5 then 0.0
  else 1.0 - ((total : ℚ) - 1) / (5 - 1)

/-- `TwentyThreeWeFileScorer.indel_score` (proof.py lines 198-215), defaults
`ultra_low = 1`, `low = 3`, `high = 7`, `ultra_high = 25` inlined. -/
def indel_score (total : ℕ) : ℚ :=
  if (total : ℚ) ≤ 1 then 0.0
  else if 1 < (total : ℚ) ∧ (total : ℚ) ≤ 3 then ((total : ℚ) - 1) / (3 - 1)
  else if 3 < (total : ℚ) ∧ (total : ℚ) ≤ 7 then 1.0
  else if 7 < (total : ℚ) ∧ (total : ℚ) ≤ 25 then (25 - (total : ℚ)) / (25 - 7)
  else 0.0

/-- `TwentyThreeWeFileScorer.i_rsid_score` (proof.py lines 217-224), defaults
`low = 5`, `high = 30` inlined. -/
def i_rsid_score (total : ℕ) : ℚ :=
  if (total : ℚ) ≤ 5 then 1.0
  else if (total : ℚ) ≥ 30 then 0.0
  else 0.5

/-- `TwentyThreeWeFileScorer.percent_verification_score` (proof.py lines
226-246), defaults `low = 0.9`, `ultra_low = 0.85`, `high = 0.96`,
`ultra_high = 0.98` inlined.  Python raises `ZeroDivisionError` when
`all = 0`; that exceptional outcome is the `none` case. -/
def percent_verification_score (verified allCount : ℕ) : Option ℚ :=
  if allCount = 0 then none
  else
    let ratio : ℚ := (verified : ℚ) / (allCount : ℚ)
    some
      (if 0.9 ≤ ratio ∧ ratio ≤ 0.96 then 1.0
       else if 0.85 < ratio ∧ ratio < 0.9 then (ratio - 0.85) / (0.9 - 0.85)
       else if 0.96 < ratio ∧ ratio ≤ 0.98 then (0.98 - ratio) / (0.98 - 0.96)
       else if ratio > 0.98 then 0.0
       else 0.0)

/-- The `results` dictionary consumed by `proof_of_quality` and produced by
`DbSNPHandler.dbsnp_verify` (counts only; the chromosome diagnostics lists
are not used by any scoring code). -/
structure DnaInfo where
  indels : ℕ
  i_rsids : ℕ
  invalid_genotypes : ℕ
  dbsnp_verified : ℕ
  allCount : ℕ
deriving DecidableEq

/-- `TwentyThreeWeFileScorer.proof_of_quality` (proof.py lines 284-295), as a
function of the oracle-derived counts; `none` is Python's uncaught
`ZeroDivisionError` from `percent_verification_score`. -/
def proof_of_quality (results : DnaInfo) : Option ℚ :=
  match percent_verification_score results.dbsnp_verified results.allCount with
  | none => none
  | some percent_verify_score =>
    some (0.4 * invalid_genotypes_score results.invalid_genotypes
      + 0.3 * percent_verify_score
      + 0.2 * indel_score results.indels
      + 0.1 * i_rsid_score results.i_rsids)

/-! ### Oracle round trips (proof.py lines 138-159, 248-254, 276-304)

The HTTP transport is out of scope; a round trip is abstracted by what the
scoring code can observe of it: a well-formed JSON reply carrying an optional
boolean field, a malformed body on which `response.json()` raises, or a
transport error on which `requests.get`/`requests.post` raises. -/

inductive OracleReply where
  | ok (flag : Option Bool)
  | malformed
  | netError
deriving DecidableEq

/-- `TwentyThreeWeFileScorer.verify_profile` (proof.py lines 138-148):
`resp.get("is_approved", False)`; network and JSON errors propagate as
exceptions (`Except.error`).  The profile id only enters the request URL, so
a `None` id does not change the control flow. -/
def verify_profile : OracleReply → Except String Bool
  | .ok flag => .ok (flag.getD false)
  | .malformed => .error "json decode error"
  | .netError => .error "connection error"

/-- `TwentyThreeWeFileScorer.verify_hash` (proof.py lines 150-159):
`resp.get("is_unique", False)`. -/
def verify_hash : OracleReply → Except String Bool
  | .ok flag => .ok (flag.getD false)
  | .malformed => .error "json decode error"
  | .netError => .error "connection error"

/-- `TwentyThreeWeFileScorer.save_hash` (proof.py lines 248-254):
`resp.get("success", False)`. -/
def save_hash : OracleReply → Except String Bool
  | .ok flag => .ok (flag.getD false)
  | .malformed => .error "json decode error"
  | .netError => .error "connection error"

/-- `TwentyThreeWeFileScorer.proof_of_ownership` (proof.py lines 276-282). -/
def proof_of_ownership (reply : OracleReply) : Except String ℚ :=
  match verify_profile reply with
  | .error e => .error e
  | .ok validated => if validated then .ok 1.0 else .ok 0

/-- `TwentyThreeWeFileScorer.proof_of_uniqueness` (proof.py lines 297-304).
The genome hash it computes first is the pure function `hash_23andme_file`
below; the hash value feeds only the registration payload, not the score, so
the score depends only on the uniqueness oracle's reply. -/
def proof_of_uniqueness (reply : OracleReply) : Except String ℚ :=
  match verify_hash reply with
  | .error e => .error e
  | .ok unique => if unique then .ok 1.0 else .ok 0

/-- The quality oracle round trip as observed by `DbSNPHandler.verify_snps`
(verify.py lines 87-122): a non-2xx status makes `dbsnp_verify` raise via
`raise_custom_exception`; otherwise the pipeline produces the counts
dictionary.  The sampling step uses unseeded randomness and is abstracted
into the reply. -/
inductive QualityReply where
  | ok (info : DnaInfo)
  | apiError (status : ℕ)
deriving DecidableEq

/-- `DbSNPHandler.dbsnp_verify` at the interface used by `proof_of_quality`
(verify.py lines 87-122, 209-218): API errors raise. -/
def dbsnp_verify_run : QualityReply → Except String DnaInfo
  | .ok info => .ok info
  | .apiError _ => .error "Genome Quality API Error"

/-- `proof_of_quality` as executed inside a run: oracle errors and the
`all = 0` division error both raise. -/
def proof_of_quality_run (reply : QualityReply) : Except String ℚ :=
  match dbsnp_verify_run reply with
  | .error e => .error e
  | .ok results =>
    match proof_of_quality results with
    | some quality_score => .ok quality_score
    | none => .error "ZeroDivisionError"

/-! ### Orchestrator (proof.py lines 316-394) -/

/-- The fields of `ProofResponse` written by `Proof.generate` (the pydantic
model itself lives in `dna_vana_proof.models.proof_response`, outside src/;
every field below is explicitly assigned during a run before it is read, so
its pydantic defaults are unobservable).  The `attributes` dict is modelled
by the `total_score` and `score_threshold` fields. -/
structure ProofResponse where
  authenticity : ℚ
  ownership : ℚ
  uniqueness : ℚ
  quality : ℚ
  score : ℚ
  valid : Bool
  total_score : ℚ
  score_threshold : ℚ
deriving DecidableEq

/-- The response as initialised by `Proof.__init__` (proof.py lines 317-323):
the four dimension scores are set to 0. -/
def initial_response : ProofResponse :=
  ⟨0, 0, 0, 0, 0, false, 0, 0⟩

/-- One run's external inputs: the input file's lines and the three oracle
replies plus the registration reply. -/
structure RunEnv where
  input_data : List String
  ownReply : OracleReply
  uniqReply : OracleReply
  qualReply : QualityReply
  saveReply : OracleReply

/-- `Proof.reset_scores` (proof.py lines 342-346). -/
def reset_scores (pr : ProofResponse) : ProofResponse :=
  { pr with authenticity := 0, uniqueness := 0, ownership := 0, quality := 0 }

/-- `Proof.update_proof_response` (proof.py lines 325-340): strictly ordered
checks, early return on a zero score, with an explicit reset after an
ownership or uniqueness failure. -/
def update_proof_response (env : RunEnv) : Except String ProofResponse :=
  let pr1 := { initial_response with authenticity := proof_of_authenticity env.input_data }
  if pr1.authenticity ≤ 0 then .ok pr1
  else
    match proof_of_ownership env.ownReply with
    | .error e => .error e
    | .ok own =>
      let pr2 := { pr1 with ownership := own }
      if pr2.ownership ≤ 0 then .ok (reset_scores pr2)
      else
        match proof_of_uniqueness env.uniqReply with
        | .error e => .error e
        | .ok uniq =>
          let pr3 := { pr2 with uniqueness := uniq }
          if pr3.uniqueness ≤ 0 then .ok (reset_scores pr3)
          else
            match proof_of_quality_run env.qualReply with
            | .error e => .error e
            | .ok quality => .ok { pr3 with quality := quality }

/-- `Proof.generate` (proof.py lines 348-394), starting after the input file
has been read into `input_data`: aggregate the four scores, clamp below the
0.9 threshold, set `valid`, and on a valid result require the registration
round trip to succeed (`save_hash` failure raises). -/
def generate (env : RunEnv) : Except String ProofResponse :=
  match update_proof_response env with
  | .error e => .error e
  | .ok pr =>
    let score_threshold : ℚ := 0.9
    let total0 : ℚ :=
      0.25 * pr.quality + 0.25 * pr.ownership + 0.25 * pr.authenticity + 0.25 * pr.uniqueness
    let clamped := if total0 < score_threshold then (reset_scores pr, (0 : ℚ)) else (pr, total0)
    let pr2 := { clamped.1 with
      score := clamped.2
      valid := decide (clamped.2 ≥ score_threshold)
      total_score := clamped.2
      score_threshold := score_threshold }
    if pr2.valid then
      match save_hash env.saveReply with
      | .error e => .error e
      | .ok true => .ok pr2
      | .ok false => .error "Hash Data Saving Failed."
    else .ok pr2

/-! ### DbSNPHandler classification (verify.py lines 20-122, 196-207) -/

/-- Python `str.upper()` (ASCII scope). -/
def pyUpper (s : String) : String :=
  ⟨s.data.map Char.toUpper⟩

/-- `DbSNPHandler.is_i_rsid` (verify.py lines 20-22):
`rsid.startswith("i") and rsid[1:].isdigit()` (Python `isdigit` is false on
the empty string; ASCII digits). -/
def is_i_rsid (rsid : String) : Bool :=
  pyStartsWith rsid "i" && !((pyDrop rsid 1) == "") && (pyDrop rsid 1).data.all Char.isDigit

/-- `DbSNPHandler.is_indel` (verify.py lines 24-26). -/
def is_indel (genotype : String) : Bool :=
  genotype == "--" || charIn (pyUpper genotype) 'I' || charIn (pyUpper genotype) 'D'

/-- `DbSNPHandler.verify_snp` (verify.py lines 51-61): route one invalid
entry to (skipped-rsid, indel, i-rsid) slots; note the indel slot carries the
genotype string, not the rsid. -/
def verify_snp (rsid : Option String) (genotype : String) :
    Option String × Option String × Option String :=
  match rsid with
  | none => (none, none, none)
  | some r =>
    if is_i_rsid r then (none, none, some r)
    else if is_indel genotype then (none, some genotype, none)
    else (some r, none, none)

/-- Python truthiness append: `if x: xs.append(x)` — `None` and the empty
string are both dropped (verify.py lines 113-120). -/
def truthy_cons (s : Option String) (l : List String) : List String :=
  match s with
  | some v => if v == "" then l else v :: l
  | none => l

/-- The classification loop of `DbSNPHandler.verify_snps` (verify.py lines
109-122) over the oracle's invalid list (rsid, joined-genotype pairs),
producing (skipped_rsids, indels, i_rsids) in append order. -/
def classify_invalid_list :
    List (Option String × String) → List String × List String × List String
  | [] => ([], [], [])
  | (rsid, genotype) :: rest =>
    let tail := classify_invalid_list rest
    let triple := verify_snp rsid genotype
    (truthy_cons triple.1 tail.1, truthy_cons triple.2.1 tail.2.1,
      truthy_cons triple.2.2 tail.2.2)

/-- `DbSNPHandler.handle_special_cases` (verify.py lines 28-49): over the
whole file's aligned rsid/genotype columns, move rsids flagged invalid whose
file genotype is `--`/`II`/`DD` into `indels`, then move the remaining
invalid rsids matching the i-rsid pattern into `i_rsids`.  The source builds
the shrunken invalid list with `list(set(a) - set(b))`, whose order is
unspecified and whose effect is deduplication plus removal; it is modelled
order-deterministically by `eraseDups` plus `filter` (only membership and
cardinality are consumed downstream). -/
def handle_special_cases (rsid_list genotype_list : List String)
    (invalid_genotypes indels i_rsids : List String) :
    List String × List String × List String :=
  let pairs := rsid_list.zip genotype_list
  let indel_hits := (pairs.filter (fun p =>
      (p.2 == "--" || p.2 == "II" || p.2 == "DD") && invalid_genotypes.contains p.1)).map
      Prod.fst
  let indels1 := indels ++ indel_hits
  let invalid1 := (invalid_genotypes.eraseDups).filter (fun x => !indel_hits.contains x)
  let i_rsid_hits := (pairs.filter (fun p =>
      is_i_rsid p.1 && invalid1.contains p.1)).map Prod.fst
  let i_rsids1 := i_rsids ++ i_rsid_hits
  let invalid2 := (invalid1.eraseDups).filter (fun x => !i_rsid_hits.contains x)
  (indels1, i_rsids1, invalid2)

/-- `DbSNPHandler.check_indels_and_i_rsids` (verify.py lines 63-85): run the
special-case pass and report counts.  The `dbsnp_verified` field is filled in
afterwards by `check_genotypes`; here it is 0. -/
def check_indels_and_i_rsids (rsid_list genotype_list : List String)
    (invalid_genotypes indels i_rsids : List String) : DnaInfo :=
  let res := handle_special_cases rsid_list genotype_list invalid_genotypes indels i_rsids
  { indels := res.1.length
    i_rsids := res.2.1.length
    invalid_genotypes := res.2.2.length
    dbsnp_verified := 0
    allCount := res.1.length + res.2.1.length + res.2.2.length }

/-- `DbSNPHandler.check_genotypes` (verify.py lines 196-207), given the
oracle's verdict (valid count and invalid list) and the file's aligned
rsid/genotype columns. -/
def check_genotypes (valid_count : ℕ) (invalid_list : List (Option String × String))
    (rsid_list genotype_list : List String) : DnaInfo :=
  let cls := classify_invalid_list invalid_list
  let info := check_indels_and_i_rsids rsid_list genotype_list cls.1 cls.2.1 cls.2.2
  { info with dbsnp_verified := valid_count, allCount := info.allCount + valid_count }

/-! ### Canonical hashing (proof.py lines 161-187)

`hash_23andme_file` reads the file with
`pd.read_csv(sep="\t", comment="#", names=[rsid, chromosome, position, genotype])`.
The CSV library's internals are out of scope; it is modelled at the interface
the call uses: text from `#` to end of line is discarded, lines that are
empty after that are skipped, remaining lines split on tabs into the four
named columns (fields kept verbatim as strings; the numeric `position`
column round-trips unchanged for canonical decimal literals, the only kind
the claims exercise). -/

structure SnpRow where
  rsid : String
  chromosome : String
  position : String
  genotype : String
deriving DecidableEq

/-- `comment="#"`: discard the line's remainder from the first `#`. -/
def dropLineComment (line : String) : String :=
  ⟨line.data.takeWhile (fun c => c ≠ '#')⟩

def parseCsvLine (line : String) : Option SnpRow :=
  let content := dropLineComment line
  if content == "" then none
  else
    match pySplit content '\t' with
    | [r, c, p, g] => some ⟨r, c, p, g⟩
    | _ => none

def read_csv_tab (lines : List String) : List SnpRow :=
  lines.filterMap parseCsvLine

/-- `df[~df["rsid"].str.startswith("i")]` (proof.py line 169). -/
def retained_rows (rows : List SnpRow) : List SnpRow :=
  rows.filter (fun r => !pyStartsWith r.rsid "i")

/-- The comparison used by `df_filtered.sort_values(by="rsid")` (proof.py
line 171): lexicographic order on the rsid strings (code points), matching
pandas' ordering of Python strings.  `sort_values`' default quicksort is not
stable, so the sort is modelled by a deterministic comparison sort and only
its behaviour on duplicate-free keys is relied upon by any theorem below. -/
def listLexLe : List Char → List Char → Bool
  | [], _ => true
  | _ :: _, [] => false
  | a :: as, b :: bs =>
    if a.toNat < b.toNat then true
    else if b.toNat < a.toNat then false
    else listLexLe as bs

/-- Python string comparison: lexicographic on code points. -/
def str_le (a b : String) : Bool :=
  listLexLe a.data b.data

def row_le (a b : SnpRow) : Bool :=
  str_le a.rsid b.rsid

/-- `row_le` as a relation, for `List.insertionSort`. -/
def RowLE (a b : SnpRow) : Prop :=
  row_le a b = true

instance : DecidableRel RowLE :=
  fun a b => Bool.decEq (row_le a b) true

/-- The row formatter `f"{rsid}:{chromosome}:{position}:{genotype}"`
(proof.py lines 173-178). -/
def fmt_row (row : SnpRow) : String :=
  row.rsid ++ ":" ++ row.chromosome ++ ":" ++ row.position ++ ":" ++ row.genotype

/-- The canonical pre-hash string: filter, sort by rsid, format, join with
`|` (proof.py lines 169-178). -/
def canonical_of_rows (rows : List SnpRow) : String :=
  joinSep "|" ((List.insertionSort RowLE (retained_rows rows)).map fmt_row)

/-! #### SHA-256 (hashlib.sha256, consumed at proof.py lines 183-184)

A byte-level implementation over `ℕ` (32-bit words reduced mod `2^32`),
kept fuel-structural so the kernel can evaluate it on concrete inputs. -/

def utf8Char (c : Char) : List ℕ :=
  let n := c.toNat
  if n < 0x80 then [n]
  else if n < 0x800 then [0xC0 + n / 0x40, 0x80 + n % 0x40]
  else if n < 0x10000 then
    [0xE0 + n / 0x1000, 0x80 + (n / 0x40) % 0x40, 0x80 + n % 0x40]
  else
    [0xF0 + n / 0x40000, 0x80 + (n / 0x1000) % 0x40, 0x80 + (n / 0x40) % 0x40,
      0x80 + n % 0x40]

def utf8Bytes (s : String) : List ℕ :=
  s.data.foldr (fun c acc => utf8Char c ++ acc) []

def rotr32 (n x : ℕ) : ℕ :=
  ((x >>> n) ||| (x <<< (32 - n))) % 4294967296

/-- The 64 SHA-256 round constants of FIPS 180-4 (decimal). -/
def k256 : List ℕ :=
  [1116352408, 1899447441, 3049323471, 3921009573, 961987163,
   1508970993, 2453635748, 2870763221, 3624381080, 310598401,
   607225278, 1426881987, 1925078388, 2162078206, 2614888103,
   3248222580, 3835390401, 4022224774, 264347078, 604807628,
   770255983, 1249150122, 1555081692, 1996064986, 2554220882,
   2821834349, 2952996808, 3210313671, 3336571891, 3584528711,
   113926993, 338241895, 666307205, 773529912, 1294757372,
   1396182291, 1695183700, 1986661051, 2177026350, 2456956037,
   2730485921, 2820302411, 3259730800, 3345764771, 3516065817,
   3600352804, 4094571909, 275423344, 430227734, 506948616,
   659060556, 883997877, 958139571, 1322822218, 1537002063,
   1747873779, 1955562222, 2024104815, 2227730452, 2361852424,
   2428436474, 2756734187, 3204031479, 3329325298]

/-- The eight SHA-256 initial hash words of FIPS 180-4 (decimal). -/
def sha256InitState : ℕ × ℕ × ℕ × ℕ × ℕ × ℕ × ℕ × ℕ :=
  (1779033703, 3144134277, 1013904242, 2773480762, 1359893119, 2600822924, 528734635, 1541459225)

def be64 (n : ℕ) : List ℕ :=
  [(n >>> 56) % 256, (n >>> 48) % 256, (n >>> 40) % 256, (n >>> 32) % 256,
    (n >>> 24) % 256, (n >>> 16) % 256, (n >>> 8) % 256, n % 256]

def be32 (n : ℕ) : List ℕ :=
  [(n >>> 24) % 256, (n >>> 16) % 256, (n >>> 8) % 256, n % 256]

def sha256Pad (msg : List ℕ) : List ℕ :=
  let len := msg.length
  let zeros := (64 + 56 - (len + 1) % 64) % 64
  msg ++ 0x80 :: List.replicate zeros 0 ++ be64 (8 * len)

def bytesToWords : List ℕ → List ℕ
  | b0 :: b1 :: b2 :: b3 :: rest =>
    (b0 * 0x1000000 + b1 * 0x10000 + b2 * 0x100 + b3) :: bytesToWords rest
  | _ => []

def chunkWords : ℕ → List ℕ → List (List ℕ)
  | 0, _ => []
  | _ + 1, [] => []
  | fuel + 1, ws => ws.take 16 :: chunkWords fuel (ws.drop 16)

def scheduleWord (w : List ℕ) : ℕ :=
  let n := w.length
  let wi := fun (k : ℕ) => w.getD (n - k) 0
  let s0 := (rotr32 7 (wi 15)) ^^^ (rotr32 18 (wi 15)) ^^^ ((wi 15) >>> 3)
  let s1 := (rotr32 17 (wi 2)) ^^^ (rotr32 19 (wi 2)) ^^^ ((wi 2) >>> 10)
  (wi 16 + s0 + wi 7 + s1) % 4294967296

def extendSchedule : ℕ → List ℕ → List ℕ
  | 0, w => w
  | c + 1, w => extendSchedule c (w ++ [scheduleWord w])

def compressStep (st : ℕ × ℕ × ℕ × ℕ × ℕ × ℕ × ℕ × ℕ) (wk : ℕ × ℕ) :
    ℕ × ℕ × ℕ × ℕ × ℕ × ℕ × ℕ × ℕ :=
  let (a, b, c, d, e, f, g, h) := st
  let s1 := (rotr32 6 e) ^^^ (rotr32 11 e) ^^^ (rotr32 25 e)
  let ch := (e &&& f) ^^^ ((e ^^^ 0xffffffff) &&& g)
  let temp1 := (h + s1 + ch + wk.2 + wk.1) % 4294967296
  let s0 := (rotr32 2 a) ^^^ (rotr32 13 a) ^^^ (rotr32 22 a)
  let maj := (a &&& b) ^^^ (a &&& c) ^^^ (b &&& c)
  let temp2 := (s0 + maj) % 4294967296
  ((temp1 + temp2) % 4294967296, a, b, c, (d + temp1) % 4294967296, e, f, g)

def compressBlock (st : ℕ × ℕ × ℕ × ℕ × ℕ × ℕ × ℕ × ℕ) (block : List ℕ) :
    ℕ × ℕ × ℕ × ℕ × ℕ × ℕ × ℕ × ℕ :=
  let w := extendSchedule 48 block
  let r := (w.zip k256).foldl compressStep st
  ((st.1 + r.1) % 4294967296,
   (st.2.1 + r.2.1) % 4294967296,
   (st.2.2.1 + r.2.2.1) % 4294967296,
   (st.2.2.2.1 + r.2.2.2.1) % 4294967296,
   (st.2.2.2.2.1 + r.2.2.2.2.1) % 4294967296,
   (st.2.2.2.2.2.1 + r.2.2.2.2.2.1) % 4294967296,
   (st.2.2.2.2.2.2.1 + r.2.2.2.2.2.2.1) % 4294967296,
   (st.2.2.2.2.2.2.2 + r.2.2.2.2.2.2.2) % 4294967296)

def sha256Bytes (msg : List ℕ) : List ℕ :=
  let ws := bytesToWords (sha256Pad msg)
  let blocks := chunkWords ws.length ws
  let st := blocks.foldl compressBlock sha256InitState
  be32 st.1 ++ be32 st.2.1 ++ be32 st.2.2.1 ++ be32 st.2.2.2.1 ++
    be32 st.2.2.2.2.1 ++ be32 st.2.2.2.2.2.1 ++ be32 st.2.2.2.2.2.2.1 ++
    be32 st.2.2.2.2.2.2.2

def hexChar (n : ℕ) : Char :=
  "0123456789abcdef".data.getD n '0'

/-- `hashlib.sha256(s.encode()).hexdigest()`. -/
def sha256_hex (s : String) : String :=
  ⟨(sha256Bytes (utf8Bytes s)).foldr
    (fun b acc => hexChar (b / 16) :: hexChar (b % 16) :: acc) []⟩

/-- `TwentyThreeWeFileScorer.hash_23andme_file` (proof.py lines 161-187) on
the file's lines. -/
def hash_23andme_file (lines : List String) : String :=
  sha256_hex (canonical_of_rows (read_csv_tab lines))

/-! ### Claim-side (specification) predicates

These definitions transcribe the wording of the claims under test, to be
compared with the code-derived definitions above.  They are the one place
where a definition follows the specification's words rather than the
source. -/

/-- Claim C3's reading of one body line, with a comment line understood as a
line starting with `#`: a non-comment, non-empty line must split into exactly
4 tab-separated fields with a matching rsid, a valid chromosome and a
genotype over the valid alphabet. -/
def spec_body_line_ok (line : String) : Bool :=
  if pyStartsWith line "#" then true
  else
    let l := pyStrip line
    if l == "" then false
    else
      match pySplit l '\t' with
      | [rsid, chromosome, _, genotype] =>
        rsid_matches rsid && valid_chromosomes.contains chromosome &&
          genotype.data.all (fun c => valid_genotypes.contains c)
      | _ => false

def spec_body_ok (input_data : List String) : Bool :=
  input_data.all spec_body_line_ok

/-- The amended reading of one body line forced by the code: a line whose
stripped text contains `#` anywhere (not only at the start) is skipped as a
comment. -/
def amended_body_line_ok (line : String) : Bool :=
  let l := pyStrip line
  if charIn l '#' then true
  else if l == "" then false
  else
    match pySplit l '\t' with
    | [rsid, chromosome, _, genotype] =>
      rsid_matches rsid && valid_chromosomes.contains chromosome &&
        genotype.data.all (fun c => valid_genotypes.contains c)
    | _ => false

def amended_body_ok (input_data : List String) : Bool :=
  input_data.all amended_body_line_ok

/-- Claim C4's reading of the header check: take the leading comment /
column-header lines, discard any header line containing the dynamic per-user
URL path segment, strip each remaining line, rejoin, and compare with the
canonical header text. -/
def spec_header_ok (input_data : List String) : Bool :=
  clean_template == joinSep "\n"
    (((input_data.takeWhile (fun l => pyStartsWith l "#" || pyStartsWith l "rsid")).filter
        (fun l => !strContains l "https://you.23andme.com/p/")).map pyStrip)

/-- The header lines the code actually keeps, phrased with takeWhile/filter:
it additionally discards lines starting with the generated-at marker, only
discards URL lines that start with (not merely contain) the per-user URL
prefix, and strips each kept line. -/
def amended_header_kept (input_data : List String) : List String :=
  ((input_data.takeWhile (fun l => pyStartsWith l "#" || pyStartsWith l "rsid")).filter
    (fun l => !(pyStartsWith l "# This data file generated by 23andMe at:" ||
                pyStartsWith l "# https://you.23andme.com/p/"))).map pyStrip

/-- The amended header check: as `spec_header_ok`, but with the code's line
filters and with the first kept header line dropped before the comparison. -/
def amended_header_ok (input_data : List String) : Bool :=
  clean_template == pyStrip (joinSep "\n" ((amended_header_kept input_data).drop 1))

/-! ### Cleanliness side conditions for the hashing claims -/

/-- `c` does not occur in `s`. -/
def noChar (c : Char) (s : String) : Bool :=
  !s.data.contains c

/-- A row whose fields cannot confuse the `rsid:chromosome:position:genotype`
/ `|` canonical encoding: no field contains `|`, and the first three fields
contain no `:`.  Every well-formed 23andMe row satisfies this. -/
def row_fields_clean (s : SnpRow) : Bool :=
  noChar '|' s.rsid && noChar '|' s.chromosome && noChar '|' s.position &&
    noChar '|' s.genotype && noChar ':' s.rsid && noChar ':' s.chromosome &&
    noChar ':' s.position

/-! ### Concrete fixtures -/

/-- The canonical header, one line per entry (exactly the lines of
`clean_template`). -/
def template_lines : List String :=
  pySplit clean_template '\n'

/-- A file that passes both the header check and the body check: a dummy
first header line (dropped by `read_header`'s `[1:]`), the canonical header
lines, and one well-formed data row. -/
def good_lines : List String :=
  "#junk" :: template_lines ++ ["rs3\t1\t100\tAA"]

/-- Oracle counts for a perfect-quality reply: 0 invalid genotypes, 4
indels, 2 i-rsids, 93 of 100 dbSNP-verified. -/
def good_info : DnaInfo :=
  ⟨4, 2, 0, 93, 100⟩

/-- A fully passing run environment. -/
def good_env : RunEnv :=
  ⟨good_lines, .ok (some true), .ok (some true), .ok good_info, .ok (some true)⟩

/-- The proof response of the fully passing run. -/
def good_response : ProofResponse :=
  ⟨1, 1, 1, 1, 1, true, 1, 0.9⟩

/-- A run environment whose ownership oracle denies the profile, on the same
fully authentic input file. -/
def denied_env : RunEnv :=
  ⟨good_lines, .ok (some false), .ok (some true), .ok good_info, .ok (some true)⟩

/-- The all-zero rejection response with the threshold recorded. -/
def rejected_response : ProofResponse :=
  ⟨0, 0, 0, 0, 0, false, 0, 0.9⟩

/-! ## Theorems -/

/-- SHA-256 sanity check against the FIPS 180-2 test vector. -/
theorem sha256_known_vector :
    sha256_hex "abc" =
      "ba7816bf8f01cfea414140de5dae2223b00361a396177a9cb410ff61f20015ad" := by
  decide

/-! ### Run-analysis helpers -/

lemma proof_of_authenticity_vals (input_data : List String) :
    proof_of_authenticity input_data = 1 ∨ proof_of_authenticity input_data = 0 := by
  rw [proof_of_authenticity]
  split
  · left; norm_num
  · right; rfl

lemma proof_of_ownership_vals (r : OracleReply) (q : ℚ)
    (h : proof_of_ownership r = .ok q) : q = 1 ∨ q = 0 := by
  cases r with
  | ok flag =>
    cases hf : flag.getD false <;>
      simp only [proof_of_ownership, verify_profile, hf, if_true, if_false] at h
    · right; exact (Except.ok.inj h).symm
    · left; rw [← Except.ok.inj h]; norm_num
  | malformed => simp [proof_of_ownership, verify_profile] at h
  | netError => simp [proof_of_ownership, verify_profile] at h

lemma proof_of_uniqueness_vals (r : OracleReply) (q : ℚ)
    (h : proof_of_uniqueness r = .ok q) : q = 1 ∨ q = 0 := by
  cases r with
  | ok flag =>
    cases hf : flag.getD false <;>
      simp only [proof_of_uniqueness, verify_hash, hf, if_true, if_false] at h
    · right; exact (Except.ok.inj h).symm
    · left; rw [← Except.ok.inj h]; norm_num
  | malformed => simp [proof_of_uniqueness, verify_hash] at h
  | netError => simp [proof_of_uniqueness, verify_hash] at h

/-- Shape lemma for `update_proof_response`: a run that completes without an
exception either ends in the zero state (an early rejection, possibly after
the explicit reset) or passed all three binary checks with score 1 each and
carries the computed quality score. -/
lemma update_cases (env : RunEnv) (pr : ProofResponse)
    (h : update_proof_response env = .ok pr) :
    (pr.authenticity = 0 ∧ pr.ownership = 0 ∧ pr.uniqueness = 0 ∧ pr.quality = 0) ∨
    (pr.authenticity = 1 ∧ pr.ownership = 1 ∧ pr.uniqueness = 1 ∧
      proof_of_ownership env.ownReply = .ok 1 ∧
      proof_of_uniqueness env.uniqReply = .ok 1 ∧
      proof_of_quality_run env.qualReply = .ok pr.quality) := by
  rw [update_proof_response] at h
  simp only [] at h
  by_cases ha : proof_of_authenticity env.input_data ≤ 0
  · rw [if_pos ha] at h
    replace h := Except.ok.inj h
    rcases proof_of_authenticity_vals env.input_data with h1 | h0
    · exfalso; rw [h1] at ha; norm_num at ha
    · left
      rw [← h]
      simp [initial_response, h0]
  · rw [if_neg ha] at h
    have ha1 : proof_of_authenticity env.input_data = 1 := by
      rcases proof_of_authenticity_vals env.input_data with h1 | h0
      · exact h1
      · exfalso; rw [h0] at ha; exact ha le_rfl
    rcases hown : proof_of_ownership env.ownReply with e | own
    · rw [hown] at h; exact absurd h (by simp)
    · rw [hown] at h
      simp only [] at h
      by_cases ho : own ≤ 0
      · rw [if_pos ho] at h
        replace h := Except.ok.inj h
        left
        rw [← h]
        simp [reset_scores, initial_response]
      · rw [if_neg ho] at h
        have ho1 : own = 1 := by
          rcases proof_of_ownership_vals env.ownReply own hown with h1 | h0
          · exact h1
          · exfalso; rw [h0] at ho; exact ho le_rfl
        rcases huni : proof_of_uniqueness env.uniqReply with e | uniq
        · rw [huni] at h; exact absurd h (by simp)
        · rw [huni] at h
          simp only [] at h
          by_cases hu : uniq ≤ 0
          · rw [if_pos hu] at h
            replace h := Except.ok.inj h
            left
            rw [← h]
            simp [reset_scores, initial_response]
          · rw [if_neg hu] at h
            have hu1 : uniq = 1 := by
              rcases proof_of_uniqueness_vals env.uniqReply uniq huni with h1 | h0
              · exact h1
              · exfalso; rw [h0] at hu; exact hu le_rfl
            rcases hq : proof_of_quality_run env.qualReply with e | quality
            · rw [hq] at h; exact absurd h (by simp)
            · rw [hq] at h
              replace h := Except.ok.inj h
              right
              rw [← h]
              refine ⟨by simp [initial_response, ha1], by simp [initial_response, ho1],
                by simp [initial_response, hu1], by rw [ho1], by rw [hu1], rfl⟩

/-- Shape lemma for `generate`: a run that returns a response either hit the
threshold clamp (all scores reset, total 0, invalid) or kept the aggregate
total, was marked valid, and registered its hash successfully. -/
lemma generate_cases (env : RunEnv) (resp : ProofResponse)
    (h : generate env = .ok resp) :
    ∃ pr, update_proof_response env = .ok pr ∧
      ((0.25 * pr.quality + 0.25 * pr.ownership + 0.25 * pr.authenticity +
          0.25 * pr.uniqueness < 0.9 ∧
        resp = { reset_scores pr with
          score := 0, valid := false, total_score := 0, score_threshold := 0.9 }) ∨
       (0.9 ≤ 0.25 * pr.quality + 0.25 * pr.ownership + 0.25 * pr.authenticity +
          0.25 * pr.uniqueness ∧
        resp = { pr with
          score := 0.25 * pr.quality + 0.25 * pr.ownership + 0.25 * pr.authenticity +
            0.25 * pr.uniqueness,
          valid := true,
          total_score := 0.25 * pr.quality + 0.25 * pr.ownership + 0.25 * pr.authenticity +
            0.25 * pr.uniqueness,
          score_threshold := 0.9 } ∧
        save_hash env.saveReply = .ok true)) := by
  rw [generate] at h
  rcases hupd : update_proof_response env with e | pr
  · rw [hupd] at h; exact absurd h (by simp)
  · rw [hupd] at h
    refine ⟨pr, rfl, ?_⟩
    simp only [] at h
    by_cases hc : 0.25 * pr.quality + 0.25 * pr.ownership + 0.25 * pr.authenticity +
        0.25 * pr.uniqueness < 0.9
    · left
      rw [if_pos hc] at h
      have hd : decide ((0 : ℚ) ≥ 0.9) = false := by
        simp only [decide_eq_false_iff_not]; norm_num
      rw [hd] at h
      simp only [Bool.false_eq_true, if_false] at h
      exact ⟨hc, (Except.ok.inj h).symm⟩
    · right
      rw [if_neg hc] at h
      have hge : (0.9 : ℚ) ≤ 0.25 * pr.quality + 0.25 * pr.ownership +
          0.25 * pr.authenticity + 0.25 * pr.uniqueness := le_of_not_lt hc
      have hd : decide (0.25 * pr.quality + 0.25 * pr.ownership + 0.25 * pr.authenticity +
          0.25 * pr.uniqueness ≥ 0.9) = true := by
        simp only [decide_eq_true_eq]; exact hge
      rw [hd] at h
      simp only [if_true] at h
      rcases hs : save_hash env.saveReply with e | b
      · rw [hs] at h; exact absurd h (by simp)
      · rw [hs] at h
        cases b with
        | true => exact ⟨hge, (Except.ok.inj h).symm, rfl⟩
        | false => exact absurd h (by simp)

/-! ### Concrete run evaluations (shared by the witnesses) -/

lemma auth_good_eval : proof_of_authenticity good_lines = 1 := by
  have h1 : check_header good_lines = true := by decide
  have h2 : check_rsid_lines good_lines = true := by decide
  norm_num [proof_of_authenticity, h1, h2]

lemma pvs_good_eval : percent_verification_score 93 100 = some 1 := by
  norm_num [percent_verification_score]

lemma qual_good_eval : proof_of_quality good_info = some 1 := by
  rw [proof_of_quality, good_info]
  norm_num [pvs_good_eval, invalid_genotypes_score, indel_score, i_rsid_score]

lemma upd_good_eval : update_proof_response good_env =
    .ok { initial_response with
      authenticity := 1, ownership := 1, uniqueness := 1, quality := 1 } := by
  rw [update_proof_response]
  simp only [good_env, auth_good_eval]
  norm_num [proof_of_ownership, proof_of_uniqueness, proof_of_quality_run, dbsnp_verify_run,
    verify_profile, verify_hash, qual_good_eval, initial_response]

lemma gen_good_eval : generate good_env = .ok good_response := by
  rw [generate, upd_good_eval]
  norm_num [initial_response, save_hash, good_env, good_response]

lemma own_denied_eval : proof_of_ownership denied_env.ownReply = .ok 0 := by
  simp [denied_env, proof_of_ownership, verify_profile]

lemma upd_denied_eval : update_proof_response denied_env = .ok initial_response := by
  rw [update_proof_response]
  simp only [denied_env, auth_good_eval]
  norm_num [proof_of_ownership, verify_profile, reset_scores, initial_response]

lemma gen_denied_eval : generate denied_env = .ok rejected_response := by
  rw [generate, upd_denied_eval]
  norm_num [initial_response, reset_scores, rejected_response]

/-! ### Orchestrator claims -/

/-- C1: at the end of every run that returns a response, the pre-clamp total
is `0.25 * (authenticity + ownership + uniqueness + quality)` of the scores
computed by the check sequence; whenever that value is below 0.9 the
reported `total_score` and all four component scores are forced to 0;
otherwise `total_score` is exactly that value; and `valid` holds exactly
when the reported `total_score` is at least 0.9. -/
theorem claim1_aggregate_and_threshold (env : RunEnv) (pr resp : ProofResponse)
    (hupd : update_proof_response env = .ok pr)
    (hgen : generate env = .ok resp) :
    (0.25 * (pr.authenticity + pr.ownership + pr.uniqueness + pr.quality) < 0.9 →
      resp.total_score = 0 ∧ resp.authenticity = 0 ∧ resp.ownership = 0 ∧
        resp.uniqueness = 0 ∧ resp.quality = 0) ∧
    (0.9 ≤ 0.25 * (pr.authenticity + pr.ownership + pr.uniqueness + pr.quality) →
      resp.total_score =
        0.25 * (pr.authenticity + pr.ownership + pr.uniqueness + pr.quality)) ∧
    (resp.valid = true ↔ 0.9 ≤ resp.total_score) := by
  obtain ⟨pr2, hupd2, hcase⟩ := generate_cases env resp hgen
  rw [hupd] at hupd2
  obtain rfl := Except.ok.inj hupd2
  have harr : 0.25 * pr.quality + 0.25 * pr.ownership + 0.25 * pr.authenticity +
      0.25 * pr.uniqueness =
      0.25 * (pr.authenticity + pr.ownership + pr.uniqueness + pr.quality) := by ring
  rw [harr] at hcase
  rcases hcase with ⟨hlt, rfl⟩ | ⟨hge, rfl, hsave⟩
  · refine ⟨fun _ => ⟨rfl, ?_, ?_, ?_, ?_⟩, fun hge => absurd hge (not_le.mpr hlt), ?_⟩
    · simp [reset_scores]
    · simp [reset_scores]
    · simp [reset_scores]
    · simp [reset_scores]
    · constructor
      · intro hv; exact absurd hv (by simp)
      · intro hle; exfalso; norm_num at hle
  · refine ⟨fun hlt => absurd hge (not_le.mpr hlt), fun _ => rfl, ?_⟩
    constructor
    · intro _; exact hge
    · intro _; rfl

/-- C2: in every run that returns a response, if the ownership check came
back 0 (or, for the analogous case, the uniqueness check came back 0), the
final response has all four scores equal to 0 and `valid = false`, even
though authenticity (and ownership) had been computed as positive earlier in
the run. -/
theorem claim2_ownership_failure_resets (env : RunEnv) (resp : ProofResponse)
    (hgen : generate env = .ok resp)
    (hfail : proof_of_ownership env.ownReply = .ok 0 ∨
      proof_of_uniqueness env.uniqReply = .ok 0) :
    resp.authenticity = 0 ∧ resp.ownership = 0 ∧ resp.uniqueness = 0 ∧
      resp.quality = 0 ∧ resp.valid = false := by
  obtain ⟨pr, hupd, hcase⟩ := generate_cases env resp hgen
  have hzero : pr.authenticity = 0 ∧ pr.ownership = 0 ∧ pr.uniqueness = 0 ∧
      pr.quality = 0 := by
    rcases update_cases env pr hupd with hz | ⟨_, _, _, hown1, huni1, _⟩
    · exact hz
    · exfalso
      rcases hfail with hf | hf
      · rw [hf] at hown1; have h01 := Except.ok.inj hown1; norm_num at h01
      · rw [hf] at huni1; have h01 := Except.ok.inj huni1; norm_num at h01
  obtain ⟨hA, hO, hU, hQ⟩ := hzero
  rcases hcase with ⟨hlt, rfl⟩ | ⟨hge, rfl, _⟩
  · exact ⟨by simp [reset_scores], by simp [reset_scores], by simp [reset_scores],
      by simp [reset_scores], rfl⟩
  · exfalso; rw [hA, hO, hU, hQ] at hge; norm_num at hge

/-- C10: whenever a returned response has `valid = true`, the three binary
checks all scored 1, the quality score is at least 0.6, and the reported
total is `0.25 * (3 + quality)`, hence at least 0.9. -/
theorem claim10_valid_implies_components (env : RunEnv) (resp : ProofResponse)
    (hgen : generate env = .ok resp) (hvalid : resp.valid = true) :
    resp.authenticity = 1 ∧ resp.ownership = 1 ∧ resp.uniqueness = 1 ∧
      (3 / 5 : ℚ) ≤ resp.quality ∧
      resp.total_score = 0.25 * (3 + resp.quality) ∧ (0.9 : ℚ) ≤ resp.total_score := by
  obtain ⟨pr, hupd, hcase⟩ := generate_cases env resp hgen
  rcases hcase with ⟨hlt, rfl⟩ | ⟨hge, rfl, hsave⟩
  · exact absurd hvalid (by simp)
  · rcases update_cases env pr hupd with ⟨hA, hO, hU, hQ⟩ | ⟨hA, hO, hU, _, _, _⟩
    · exfalso; rw [hA, hO, hU, hQ] at hge; norm_num at hge
    · have hq : (3 / 5 : ℚ) ≤ pr.quality := by
        rw [hA, hO, hU] at hge; linarith
      refine ⟨hA, hO, hU, hq, ?_, hge⟩
      show 0.25 * pr.quality + 0.25 * pr.ownership + 0.25 * pr.authenticity +
          0.25 * pr.uniqueness = 0.25 * (3 + pr.quality)
      rw [hA, hO, hU]; ring

/-- C1 witness: the fully passing run reaches the aggregate with component
scores (1,1,1,1), reports total 1 and is valid. -/
theorem claim1_witness :
    generate good_env = .ok good_response ∧
      (good_response.valid = true ↔ 0.9 ≤ good_response.total_score) :=
  ⟨gen_good_eval,
    (claim1_aggregate_and_threshold good_env _ good_response upd_good_eval gen_good_eval).2.2⟩

/-- C2 witness: a run on a fully authentic file whose ownership oracle says
`is_approved = false` ends with every score 0 and `valid = false`. -/
theorem claim2_witness :
    proof_of_ownership denied_env.ownReply = .ok 0 ∧
      generate denied_env = .ok rejected_response ∧
      (rejected_response.authenticity = 0 ∧ rejected_response.ownership = 0 ∧
        rejected_response.uniqueness = 0 ∧ rejected_response.quality = 0 ∧
        rejected_response.valid = false) :=
  ⟨own_denied_eval, gen_denied_eval,
    claim2_ownership_failure_resets denied_env rejected_response gen_denied_eval
      (Or.inl own_denied_eval)⟩

/-- C10 witness: the fully passing run is valid and its components satisfy
the derived bounds. -/
theorem claim10_witness :
    generate good_env = .ok good_response ∧ good_response.valid = true ∧
      (good_response.authenticity = 1 ∧ good_response.ownership = 1 ∧
        good_response.uniqueness = 1 ∧ (3 / 5 : ℚ) ≤ good_response.quality ∧
        good_response.total_score = 0.25 * (3 + good_response.quality) ∧
        (0.9 : ℚ) ≤ good_response.total_score) :=
  ⟨gen_good_eval, rfl,
    claim10_valid_implies_components good_env good_response gen_good_eval rfl⟩

/-! ### Body check (claim C3) -/

lemma cond_append_isEmpty {α : Type} (acc : List α) (row : α) (b : Bool) :
    ((if b then acc ++ [row] else acc).isEmpty = true) ↔
      (acc.isEmpty = true ∧ b = false) := by
  cases b <;> simp

lemma check_rsid_loop_iff (input : List String) :
    ∀ acc, check_rsid_loop input acc = true ↔
      (acc.isEmpty = true ∧ amended_body_ok input = true) := by
  induction input with
  | nil =>
    intro acc
    simp [check_rsid_loop, amended_body_ok]
  | cons line rest ih =>
    intro acc
    rw [check_rsid_loop]
    simp only [amended_body_ok, List.all_cons, Bool.and_eq_true]
    by_cases hcomment : charIn (pyStrip line) '#'
    · rw [if_pos hcomment, ih]
      have hline : amended_body_line_ok line = true := by
        simp [amended_body_line_ok, hcomment]
      rw [hline]
      simp [amended_body_ok]
    · rw [if_neg hcomment]
      by_cases hempty : pyStrip line == ""
      · rw [if_pos hempty]
        have hline : amended_body_line_ok line = false := by
          simp only [amended_body_line_ok]
          rw [if_neg hcomment, if_pos hempty]
        rw [hline]
        simp
      · rw [if_neg hempty]
        have hline : amended_body_line_ok line =
            match pySplit (pyStrip line) '\t' with
            | [rsid, chromosome, _, genotype] =>
              rsid_matches rsid && valid_chromosomes.contains chromosome &&
                genotype.data.all (fun c => valid_genotypes.contains c)
            | _ => false := by
          simp only [amended_body_line_ok]
          rw [if_neg hcomment, if_neg hempty]
        rcases hs : pySplit (pyStrip line) '\t' with
          _ | ⟨r, _ | ⟨ch, _ | ⟨p, _ | ⟨g, _ | ⟨e, tl⟩⟩⟩⟩⟩ <;>
          rw [hs] at hline <;> simp only [] at hline <;> rw [hline]
        · simp
        · simp
        · simp
        · simp
        · rw [ih]
          simp only [cond_append_isEmpty, Bool.and_eq_true, amended_body_ok]
          constructor
          · rintro ⟨⟨⟨⟨hacc, h1⟩, h2⟩, h3⟩, hrest⟩
            refine ⟨hacc, ⟨⟨?_, ?_⟩, ?_⟩, hrest⟩
            · cases hr : rsid_matches r
              · rw [hr] at h1; simp at h1
              · rfl
            · cases hc : valid_chromosomes.contains ch
              · rw [hc] at h2; simp at h2
              · rfl
            · cases hg : g.data.all (fun c => valid_genotypes.contains c)
              · have hex : ∃ c ∈ g.data, valid_genotypes.contains c = false := by
                  have hno := List.all_eq_false.mp hg
                  push_neg at hno
                  rcases hno with ⟨c, hmem, hc2⟩
                  exact ⟨c, hmem, Bool.eq_false_iff.mpr hc2⟩
                rcases hex with ⟨c, hmem, hcf⟩
                have hany : g.data.any (fun c => !valid_genotypes.contains c) = true :=
                  List.any_eq_true.mpr ⟨c, hmem, by rw [hcf]; rfl⟩
                rw [hany] at h3; simp at h3
              · rfl
          · rintro ⟨hacc, ⟨⟨h1, h2⟩, h3⟩, hrest⟩
            refine ⟨⟨⟨⟨hacc, by rw [h1]; rfl⟩, by rw [h2]; rfl⟩, ?_⟩, hrest⟩
            have hnone : g.data.any (fun c => !valid_genotypes.contains c) = false := by
              rw [Bool.eq_false_iff]
              intro hany
              rcases List.any_eq_true.mp hany with ⟨c, hmem, hval⟩
              have hcm := List.all_eq_true.mp h3 c hmem
              rw [hcm] at hval
              simp at hval
            rw [hnone]
        · simp

lemma check_rsid_lines_iff (input : List String) :
    check_rsid_lines input = amended_body_ok input := by
  rw [Bool.eq_iff_iff, check_rsid_lines, check_rsid_loop_iff]
  simp

/-- C3 counterexample: a file with a valid canonical header and a data line
`rs3<TAB>1<TAB>100<TAB>AA#` whose genotype field contains the invalid
character `#`.  Under the claim's reading (a comment line starts with `#`),
authenticity should be 0.0; the code skips any line containing `#` anywhere
and returns 1.0. -/
theorem claim3_counterexample :
    check_header (good_lines ++ ["rs3\t1\t100\tAA#"]) = true ∧
      spec_body_ok (good_lines ++ ["rs3\t1\t100\tAA#"]) = false ∧
      proof_of_authenticity (good_lines ++ ["rs3\t1\t100\tAA#"]) = 1 := by
  refine ⟨by decide, by decide, ?_⟩
  have h1 : check_header (good_lines ++ ["rs3\t1\t100\tAA#"]) = true := by decide
  have h2 : check_rsid_lines (good_lines ++ ["rs3\t1\t100\tAA#"]) = true := by decide
  norm_num [proof_of_authenticity, h1, h2]

/-- C3 amended: for every input file with a valid canonical header,
`proof_of_authenticity` returns 1.0 exactly when every line whose stripped
text does not contain `#` (the code's comment test) is non-empty and splits
into exactly 4 tab-separated fields with a matching rsid, a chromosome in
the 25-name set and a genotype over `{A,T,C,G,-,I,D}`; it returns 0.0 as
soon as one such line violates one of these rules. -/
theorem claim3_amended_body_check (input_data : List String)
    (hheader : check_header input_data = true) :
    proof_of_authenticity input_data =
      if amended_body_ok input_data then 1 else 0 := by
  rw [proof_of_authenticity, hheader, check_rsid_lines_iff]
  cases amended_body_ok input_data <;> norm_num

/-- C3 witness: the fully authentic fixture file satisfies the amended body
predicate and scores 1.0. -/
theorem claim3_witness :
    check_header good_lines = true ∧
      proof_of_authenticity good_lines = (if amended_body_ok good_lines then 1 else 0) :=
  ⟨by decide, claim3_amended_body_check good_lines (by decide)⟩

/-! ### Header check (claim C4) -/

lemma read_header_lines_eq (input : List String) :
    read_header_lines input = amended_header_kept input := by
  induction input with
  | nil => simp [read_header_lines, amended_header_kept]
  | cons line rest ih =>
    rw [read_header_lines]
    by_cases h1 : (pyStartsWith line "#" || pyStartsWith line "rsid") = true
    · rw [if_pos h1]
      by_cases h2 : pyStartsWith line "# This data file generated by 23andMe at:" = true
      · rw [if_pos h2]
        simp [amended_header_kept, List.takeWhile_cons, h1, h2] at ih ⊢
        exact ih
      · rw [if_neg h2]
        by_cases h3 : pyStartsWith line "# https://you.23andme.com/p/" = true
        · rw [if_pos h3]
          simp [amended_header_kept, List.takeWhile_cons, h1, h2, h3] at ih ⊢
          exact ih
        · rw [if_neg h3]
          simp [amended_header_kept, List.takeWhile_cons, h1, h2, h3] at ih ⊢
          exact ih
    · rw [if_neg h1]
      simp [amended_header_kept, List.takeWhile_cons, h1]

/-- C4 counterexample: a file whose leading lines are exactly the canonical
header lines.  Under the claim's reading the header check should pass (the
kept lines, stripped and rejoined, equal the canonical text); the code also
drops the first kept header line (`header_lines[1:]`), so it fails. -/
theorem claim4_counterexample :
    spec_header_ok template_lines = true ∧ check_header template_lines = false :=
  ⟨by decide, by decide⟩

/-- C4 amended: the header check passes exactly when, after taking the
leading comment / column-header lines, discarding those that start with the
generated-at marker or with the per-user URL prefix, stripping each kept
line, and dropping the first kept line, the rest rejoined (and stripped once
more) equal the canonical header text. -/
theorem claim4_amended_header_check (input_data : List String) :
    check_header input_data = amended_header_ok input_data := by
  rw [check_header, amended_header_ok, read_header, read_header_lines_eq]

/-- C4 witness: on the fully authentic fixture file the amended header
predicate holds and agrees with the code. -/
theorem claim4_witness :
    check_header good_lines = amended_header_ok good_lines ∧
      amended_header_ok good_lines = true :=
  ⟨claim4_amended_header_check good_lines, by decide⟩

/-! ### Quality scorer (claims C6, C8) -/

/-- C6: the quality score is the fixed weighted combination
`0.4 * invalid + 0.3 * verifiedRatio + 0.2 * indel + 0.1 * iRsid` of the
four piecewise-linear curves, and the indel curve takes the claimed values:
0 at 0, 1 at 5, 0 at 26, rising `(t-1)/2` on `(1,3]`, plateau 1 on `(3,7]`,
falling `(25-t)/18` on `(7,25]`. -/
theorem claim6_quality_formula (results : DnaInfo) (hall : 0 < results.allCount) :
    (∃ p, percent_verification_score results.dbsnp_verified results.allCount = some p ∧
      proof_of_quality results =
        some (0.4 * invalid_genotypes_score results.invalid_genotypes + 0.3 * p +
          0.2 * indel_score results.indels + 0.1 * i_rsid_score results.i_rsids)) ∧
    indel_score 0 = 0 ∧ indel_score 5 = 1 ∧ indel_score 26 = 0 ∧
    (∀ t : ℕ, 1 < t → t ≤ 3 → indel_score t = ((t : ℚ) - 1) / 2) ∧
    (∀ t : ℕ, 3 < t → t ≤ 7 → indel_score t = 1) ∧
    (∀ t : ℕ, 7 < t → t ≤ 25 → indel_score t = (25 - (t : ℚ)) / 18) := by
  have hne : results.allCount ≠ 0 := Nat.pos_iff_ne_zero.mp hall
  refine ⟨⟨_, by rw [percent_verification_score, if_neg hne], ?_⟩, ?_, ?_, ?_, ?_, ?_, ?_⟩
  · rw [proof_of_quality, percent_verification_score, if_neg hne]
  · norm_num [indel_score]
  · norm_num [indel_score]
  · norm_num [indel_score]
  · intro t h1 h3
    have c1 : ¬ ((t : ℚ) ≤ 1) := by exact_mod_cast not_le.mpr h1
    have c2 : 1 < (t : ℚ) ∧ (t : ℚ) ≤ 3 := ⟨by exact_mod_cast h1, by exact_mod_cast h3⟩
    rw [indel_score, if_neg c1, if_pos c2]
    norm_num
  · intro t h3 h7
    have c1 : ¬ ((t : ℚ) ≤ 1) := by
      have : (1 : ℚ) < t := by exact_mod_cast Nat.lt_of_lt_of_le (by norm_num) (Nat.succ_le_of_lt h3)
      exact not_le.mpr this
    have c2 : ¬ (1 < (t : ℚ) ∧ (t : ℚ) ≤ 3) := by
      rintro ⟨_, hle⟩
      have : (3 : ℚ) < t := by exact_mod_cast h3
      linarith
    have c3 : 3 < (t : ℚ) ∧ (t : ℚ) ≤ 7 := ⟨by exact_mod_cast h3, by exact_mod_cast h7⟩
    rw [indel_score, if_neg c1, if_neg c2, if_pos c3]
    norm_num
  · intro t h7 h25
    have h7q : (7 : ℚ) < t := by exact_mod_cast h7
    have c1 : ¬ ((t : ℚ) ≤ 1) := by intro h; linarith
    have c2 : ¬ (1 < (t : ℚ) ∧ (t : ℚ) ≤ 3) := by rintro ⟨_, hle⟩; linarith
    have c3 : ¬ (3 < (t : ℚ) ∧ (t : ℚ) ≤ 7) := by rintro ⟨_, hle⟩; linarith
    have c4 : 7 < (t : ℚ) ∧ (t : ℚ) ≤ 25 := ⟨h7q, by exact_mod_cast h25⟩
    rw [indel_score, if_neg c1, if_neg c2, if_neg c3, if_pos c4]
    norm_num

/-- C6 witness: the perfect-quality counts (0 invalid, 4 indels, 2 i-rsids,
93/100 verified) instantiate the formula. -/
theorem claim6_witness :
    0 < good_info.allCount ∧
      (∃ p, percent_verification_score good_info.dbsnp_verified good_info.allCount = some p ∧
        proof_of_quality good_info =
          some (0.4 * invalid_genotypes_score good_info.invalid_genotypes + 0.3 * p +
            0.2 * indel_score good_info.indels + 0.1 * i_rsid_score good_info.i_rsids)) :=
  ⟨by decide, (claim6_quality_formula good_info (by decide)).1⟩

lemma invalid_genotypes_score_range (t : ℕ) :
    0 ≤ invalid_genotypes_score t ∧ invalid_genotypes_score t ≤ 1 := by
  rw [invalid_genotypes_score]
  split_ifs with h1 h2
  · norm_num
  · norm_num
  · push_neg at h1 h2
    have hle : ((t : ℚ) - 1) / (5 - 1) ≤ 1 := by
      rw [div_le_one (by norm_num : (0 : ℚ) < 5 - 1)]
      linarith
    have hge : 0 ≤ ((t : ℚ) - 1) / (5 - 1) := by
      apply div_nonneg <;> [linarith; norm_num]
    constructor <;> [linarith; linarith]

lemma indel_score_range (t : ℕ) : 0 ≤ indel_score t ∧ indel_score t ≤ 1 := by
  rw [indel_score]
  split_ifs with h1 h2 h3 h4
  · norm_num
  · obtain ⟨ha, hb⟩ := h2
    constructor
    · apply div_nonneg <;> [linarith; norm_num]
    · rw [div_le_one (by norm_num : (0 : ℚ) < 3 - 1)]; linarith
  · norm_num
  · obtain ⟨ha, hb⟩ := h4
    constructor
    · apply div_nonneg <;> [linarith; norm_num]
    · rw [div_le_one (by norm_num : (0 : ℚ) < 25 - 7)]; linarith
  · norm_num

lemma i_rsid_score_range (t : ℕ) : 0 ≤ i_rsid_score t ∧ i_rsid_score t ≤ 1 := by
  rw [i_rsid_score]
  split_ifs <;> norm_num

lemma percent_verification_score_range (verified allCount : ℕ) (p : ℚ)
    (h : percent_verification_score verified allCount = some p) : 0 ≤ p ∧ p ≤ 1 := by
  rw [percent_verification_score] at h
  by_cases h0 : allCount = 0
  · rw [if_pos h0] at h; exact absurd h (by simp)
  · rw [if_neg h0] at h
    dsimp only at h
    obtain rfl := Option.some.inj h
    split_ifs with c1 c2 c3 c4
    · norm_num
    · obtain ⟨ha, hb⟩ := c2
      constructor
      · apply div_nonneg <;> [linarith; norm_num]
      · rw [div_le_one (by norm_num : (0 : ℚ) < 0.9 - 0.85)]; linarith
    · obtain ⟨ha, hb⟩ := c3
      constructor
      · apply div_nonneg <;> [linarith; norm_num]
      · rw [div_le_one (by norm_num : (0 : ℚ) < 0.98 - 0.96)]; linarith
    · norm_num
    · norm_num

/-- C8 counterexample: on counts with `all = 0` (an empty oracle sample) the
quality computation raises Python's `ZeroDivisionError` instead of returning
a score. -/
theorem claim8_counterexample :
    (⟨0, 0, 0, 0, 0⟩ : DnaInfo).allCount = 0 ∧
      proof_of_quality ⟨0, 0, 0, 0, 0⟩ = none :=
  ⟨rfl, by decide⟩

/-- C8 amended: for every counts input with `all > 0` the quality
computation is defined and returns a value in `[0, 1]`; at `all = 0` it
raises a division error. -/
theorem claim8_amended_quality_total (results : DnaInfo) (hall : 0 < results.allCount) :
    ∃ q, proof_of_quality results = some q ∧ 0 ≤ q ∧ q ≤ 1 := by
  have hne : results.allCount ≠ 0 := Nat.pos_iff_ne_zero.mp hall
  rw [proof_of_quality]
  rcases hp : percent_verification_score results.dbsnp_verified results.allCount with _ | p
  · rw [percent_verification_score, if_neg hne] at hp
    exact absurd hp (by simp)
  · obtain ⟨hp0, hp1⟩ := percent_verification_score_range _ _ _ hp
    obtain ⟨hi0, hi1⟩ := invalid_genotypes_score_range results.invalid_genotypes
    obtain ⟨hd0, hd1⟩ := indel_score_range results.indels
    obtain ⟨hr0, hr1⟩ := i_rsid_score_range results.i_rsids
    exact ⟨_, rfl, by linarith, by linarith⟩

/-- C8 witness: the perfect-quality counts yield a defined score in
`[0, 1]`. -/
theorem claim8_witness :
    0 < good_info.allCount ∧
      ∃ q, proof_of_quality good_info = some q ∧ 0 ≤ q ∧ q ≤ 1 :=
  ⟨by decide, claim8_amended_quality_total good_info (by decide)⟩

/-! ### Ownership check error behaviour (claim C7) -/

/-- C7 counterexample: a network error on the ownership oracle round trip
propagates as an exception out of the ownership check; the check does not
return 0.0. -/
theorem claim7_counterexample :
    proof_of_ownership OracleReply.netError = .error "connection error" ∧
      proof_of_ownership OracleReply.netError ≠ .ok 0 :=
  ⟨rfl, by simp [proof_of_ownership, verify_profile]⟩

/-- C7 amended: the ownership check returns 1.0 exactly on a well-formed
reply with `is_approved = true`, returns 0.0 exactly on a well-formed reply
whose `is_approved` field is absent or not `true` (no retry in either case),
and raises (propagates an exception) exactly on a network error or a
malformed JSON body.  A null profileId is not special-cased: the request is
still issued and the score follows the oracle's reply. -/
theorem claim7_amended_ownership_errors (reply : OracleReply) :
    (proof_of_ownership reply = .ok 1 ↔ reply = .ok (some true)) ∧
    (proof_of_ownership reply = .ok 0 ↔ ∃ f, reply = .ok f ∧ f ≠ some true) ∧
    ((∃ e, proof_of_ownership reply = .error e) ↔
      (reply = .malformed ∨ reply = .netError)) := by
  cases reply with
  | malformed =>
    refine ⟨?_, ?_, ?_⟩
    · constructor
      · intro h; exact absurd h (by simp [proof_of_ownership, verify_profile])
      · intro h; exact absurd h (by simp)
    · constructor
      · intro h; exact absurd h (by simp [proof_of_ownership, verify_profile])
      · rintro ⟨f, hf, _⟩; exact absurd hf (by simp)
    · exact ⟨fun _ => Or.inl rfl, fun _ => ⟨"json decode error", rfl⟩⟩
  | netError =>
    refine ⟨?_, ?_, ?_⟩
    · constructor
      · intro h; exact absurd h (by simp [proof_of_ownership, verify_profile])
      · intro h; exact absurd h (by simp)
    · constructor
      · intro h; exact absurd h (by simp [proof_of_ownership, verify_profile])
      · rintro ⟨f, hf, _⟩; exact absurd hf (by simp)
    · exact ⟨fun _ => Or.inr rfl, fun _ => ⟨"connection error", rfl⟩⟩
  | ok flag =>
    rcases flag with _ | b
    · have h0 : proof_of_ownership (.ok none) = .ok 0 := by
        simp [proof_of_ownership, verify_profile]
      refine ⟨?_, ?_, ?_⟩
      · rw [h0]
        constructor
        · intro h; exfalso; have h01 := Except.ok.inj h; norm_num at h01
        · intro h; exact absurd h (by simp)
      · rw [h0]
        exact ⟨fun _ => ⟨none, rfl, by simp⟩, fun _ => rfl⟩
      · constructor
        · rintro ⟨e, he⟩; rw [h0] at he; exact absurd he (by simp)
        · rintro (h | h) <;> exact absurd h (by simp)
    · cases b
      · have h0 : proof_of_ownership (.ok (some false)) = .ok 0 := by
          simp [proof_of_ownership, verify_profile]
        refine ⟨?_, ?_, ?_⟩
        · rw [h0]
          constructor
          · intro h; exfalso; have h01 := Except.ok.inj h; norm_num at h01
          · intro h; exact absurd (OracleReply.ok.inj h) (by simp)
        · rw [h0]
          exact ⟨fun _ => ⟨some false, rfl, by simp⟩, fun _ => rfl⟩
        · constructor
          · rintro ⟨e, he⟩; rw [h0] at he; exact absurd he (by simp)
          · rintro (h | h) <;> exact absurd h (by simp)
      · have h1 : proof_of_ownership (.ok (some true)) = .ok 1 := by
          norm_num [proof_of_ownership, verify_profile]
        refine ⟨?_, ?_, ?_⟩
        · rw [h1]
          exact ⟨fun _ => rfl, fun _ => rfl⟩
        · rw [h1]
          constructor
          · intro h; exfalso; have h01 := Except.ok.inj h; norm_num at h01
          · rintro ⟨f, hf, hne⟩; exact absurd (OracleReply.ok.inj hf).symm hne
        · constructor
          · rintro ⟨e, he⟩; rw [h1] at he; exact absurd he (by simp)
          · rintro (h | h) <;> exact absurd h (by simp)

/-- C7 witness: instantiating the amended characterisation at the three
reply kinds. -/
theorem claim7_witness :
    (∃ e, proof_of_ownership OracleReply.netError = .error e) ∧
      proof_of_ownership (OracleReply.ok none) = .ok 0 ∧
      proof_of_ownership (OracleReply.ok (some true)) = .ok 1 :=
  ⟨(claim7_amended_ownership_errors OracleReply.netError).2.2.mpr (Or.inr rfl),
    (claim7_amended_ownership_errors (OracleReply.ok none)).2.1.mpr ⟨none, rfl, by simp⟩,
    (claim7_amended_ownership_errors (OracleReply.ok (some true))).1.mpr rfl⟩

/-! ### Oracle verdict partition (claim C9) -/

lemma is_indel_ne_empty (g : String) (h : is_indel g = true) : g ≠ "" := by
  intro he
  subst he
  exact absurd h (by decide)

lemma is_i_rsid_ne_empty (r : String) (h : is_i_rsid r = true) : r ≠ "" := by
  intro he
  subst he
  exact absurd h (by decide)

/-- C9 counterexample: with duplicated file rsids, the special-case pass
counts one oracle invalid entry twice.  File columns `rsid = [rs5, rs5]`,
`genotype = [--, --]`; the oracle flags the single sampled pair
`(rs5, AA)` invalid.  The final categories count 2 indels, 0 i-rsids and 0
invalid genotypes — summing to 2, not the 1 entry of the invalid list. -/
theorem claim9_counterexample :
    (check_genotypes 0 [(some "rs5", "AA")] ["rs5", "rs5"] ["--", "--"]).indels +
        (check_genotypes 0 [(some "rs5", "AA")] ["rs5", "rs5"] ["--", "--"]).i_rsids +
        (check_genotypes 0 [(some "rs5", "AA")] ["rs5", "rs5"] ["--", "--"]).invalid_genotypes
        = 2 ∧
      [(some "rs5", "AA")].length = 1 :=
  ⟨by decide, rfl⟩

/-- C9 amended: the per-entry routing of `verify_snp` is mutually exclusive
and exhaustive — each invalid entry lands in exactly one of the three slots
— and over any invalid list whose rsids are non-null, non-empty strings the
three category lists of the classification loop have lengths summing to the
length of the invalid list.  (The later `handle_special_cases` pass can
break the count, as the counterexample shows.) -/
theorem claim9_amended_partition :
    (∀ (r g : String),
      verify_snp (some r) g = (some r, none, none) ∨
        verify_snp (some r) g = (none, some g, none) ∨
        verify_snp (some r) g = (none, none, some r)) ∧
    (∀ (entries : List (Option String × String)),
      (∀ p ∈ entries, ∃ r, p.1 = some r ∧ r ≠ "") →
      (classify_invalid_list entries).1.length +
        (classify_invalid_list entries).2.1.length +
        (classify_invalid_list entries).2.2.length = entries.length) := by
  constructor
  · intro r g
    rw [verify_snp]
    by_cases hi : is_i_rsid r = true
    · rw [if_pos hi]; exact Or.inr (Or.inr rfl)
    · rw [if_neg hi]
      by_cases hd : is_indel g = true
      · rw [if_pos hd]; exact Or.inr (Or.inl rfl)
      · rw [if_neg hd]; exact Or.inl rfl
  · intro entries
    induction entries with
    | nil => intro _; rfl
    | cons p rest ih =>
      intro h
      obtain ⟨r, hr, hne⟩ := h p (List.mem_cons_self p rest)
      obtain ⟨pr, g⟩ := p
      simp only [] at hr
      subst hr
      have hrest := ih (fun q hq => h q (List.mem_cons_of_mem _ hq))
      rw [classify_invalid_list]
      simp only [verify_snp]
      by_cases hi : is_i_rsid r = true
      · rw [if_pos hi]
        have hne' : ¬ ((r == "") = true) := by simpa using hne
        simp only [truthy_cons, if_neg hne', List.length_cons]
        omega
      · rw [if_neg hi]
        by_cases hd : is_indel g = true
        · rw [if_pos hd]
          have hne' : ¬ ((g == "") = true) := by simpa using is_indel_ne_empty g hd
          simp only [truthy_cons, if_neg hne', List.length_cons]
          omega
        · rw [if_neg hd]
          have hne' : ¬ ((r == "") = true) := by simpa using hne
          simp only [truthy_cons, if_neg hne', List.length_cons]
          omega

/-- C9 witness: a three-entry invalid list with one plain invalid genotype,
one i-rsid and one indel is partitioned one-to-one. -/
theorem claim9_witness :
    (∀ p ∈ [(some "rs5", "AA"), (some "i88", "II"), (some "rs7", "DD")],
      ∃ r, (p : Option String × String).1 = some r ∧ r ≠ "") ∧
      (classify_invalid_list [(some "rs5", "AA"), (some "i88", "II"), (some "rs7", "DD")]).1.length +
        (classify_invalid_list [(some "rs5", "AA"), (some "i88", "II"), (some "rs7", "DD")]).2.1.length +
        (classify_invalid_list [(some "rs5", "AA"), (some "i88", "II"), (some "rs7", "DD")]).2.2.length
        = 3 :=
  have hall : ∀ p ∈ [((some "rs5" : Option String), "AA"), (some "i88", "II"), (some "rs7", "DD")],
      ∃ r, p.1 = some r ∧ r ≠ "" := by
    intro p hp
    simp only [List.mem_cons, List.not_mem_nil, or_false] at hp
    rcases hp with h | h | h
    · exact ⟨"rs5", by rw [h], by decide⟩
    · exact ⟨"i88", by rw [h], by decide⟩
    · exact ⟨"rs7", by rw [h], by decide⟩
  ⟨hall, (claim9_amended_partition).2 _ hall⟩

/-! ### Canonical hashing (claim C5): order lemmas -/

lemma char_toNat_inj {a b : Char} (h : a.toNat = b.toNat) : a = b :=
  Char.ofNat_toNat a ▸ Char.ofNat_toNat b ▸ congrArg Char.ofNat h

lemma listLexLe_total : ∀ (x y : List Char), listLexLe x y = true ∨ listLexLe y x = true
  | [], _ => Or.inl rfl
  | _ :: _, [] => Or.inr rfl
  | a :: as, b :: bs => by
    rw [listLexLe, listLexLe]
    rcases Nat.lt_trichotomy a.toNat b.toNat with h | h | h
    · left; rw [if_pos h]
    · rw [if_neg (by omega), if_neg (by omega), if_neg (by omega), if_neg (by omega)]
      exact listLexLe_total as bs
    · right; rw [if_pos h]

lemma listLexLe_trans : ∀ (x y z : List Char),
    listLexLe x y = true → listLexLe y z = true → listLexLe x z = true
  | [], _, _, _, _ => rfl
  | _ :: _, [], _, h1, _ => by rw [listLexLe] at h1; simp at h1
  | _ :: _, _ :: _, [], _, h2 => by rw [listLexLe] at h2; simp at h2
  | a :: as, b :: bs, c :: cs, h1, h2 => by
    rw [listLexLe] at h1 h2 ⊢
    by_cases hab : a.toNat < b.toNat
    · by_cases hbc : b.toNat < c.toNat
      · rw [if_pos (by omega : a.toNat < c.toNat)]
      · by_cases hcb : c.toNat < b.toNat
        · rw [if_neg hbc, if_pos hcb] at h2; simp at h2
        · rw [if_pos (by omega : a.toNat < c.toNat)]
    · by_cases hba : b.toNat < a.toNat
      · rw [if_neg hab, if_pos hba] at h1; simp at h1
      · rw [if_neg hab, if_neg hba] at h1
        by_cases hbc : b.toNat < c.toNat
        · rw [if_pos (by omega : a.toNat < c.toNat)]
        · by_cases hcb : c.toNat < b.toNat
          · rw [if_neg hbc, if_pos hcb] at h2; simp at h2
          · rw [if_neg hbc, if_neg hcb] at h2
            rw [if_neg (by omega : ¬ a.toNat < c.toNat),
              if_neg (by omega : ¬ c.toNat < a.toNat)]
            exact listLexLe_trans as bs cs h1 h2

lemma listLexLe_antisymm : ∀ (x y : List Char),
    listLexLe x y = true → listLexLe y x = true → x = y
  | [], [], _, _ => rfl
  | [], _ :: _, _, h2 => by rw [listLexLe] at h2; simp at h2
  | _ :: _, [], h1, _ => by rw [listLexLe] at h1; simp at h1
  | a :: as, b :: bs, h1, h2 => by
    rw [listLexLe] at h1 h2
    by_cases hab : a.toNat < b.toNat
    · rw [if_neg (by omega), if_pos hab] at h2; simp at h2
    · by_cases hba : b.toNat < a.toNat
      · rw [if_neg hab, if_pos hba] at h1; simp at h1
      · rw [if_neg hab, if_neg hba] at h1
        rw [if_neg hba, if_neg hab] at h2
        have hc : a = b := char_toNat_inj (by omega)
        rw [hc, listLexLe_antisymm as bs h1 h2]

lemma str_le_antisymm (a b : String) (h1 : str_le a b = true)
    (h2 : str_le b a = true) : a = b :=
  String.ext (listLexLe_antisymm _ _ h1 h2)

instance : IsTotal SnpRow RowLE :=
  ⟨fun a b => listLexLe_total a.rsid.data b.rsid.data⟩

instance : IsTrans SnpRow RowLE :=
  ⟨fun _ _ _ h1 h2 => listLexLe_trans _ _ _ h1 h2⟩

/-- Two sorted lists of rows that are permutations of each other and have
duplicate-free rsids are equal: the sort order is fully determined by the
keys, so any correct comparison sort (pandas' unstable quicksort included)
produces this list. -/
lemma sorted_nodup_key_unique : ∀ (xs ys : List SnpRow), xs.Perm ys →
    List.Sorted RowLE xs → List.Sorted RowLE ys →
    (xs.map SnpRow.rsid).Nodup → xs = ys
  | [], ys, hperm, _, _, _ => hperm.nil_eq
  | x :: xs', ys, hperm, hsx, hsy, hnd => by
    rcases ys with _ | ⟨y, ys'⟩
    · have := hperm.eq_nil; simp at this
    · have hxy : x = y := by
        by_contra hne
        have hxmem : x ∈ y :: ys' := hperm.mem_iff.mp (List.mem_cons_self x xs')
        have hymem : y ∈ x :: xs' := hperm.symm.mem_iff.mp (List.mem_cons_self y ys')
        have hxys' : x ∈ ys' := by
          rcases List.mem_cons.mp hxmem with h | h
          · exact absurd h hne
          · exact h
        have hyxs' : y ∈ xs' := by
          rcases List.mem_cons.mp hymem with h | h
          · exact absurd h.symm hne
          · exact h
        have h1 : RowLE x y := (List.sorted_cons.mp hsx).1 y hyxs'
        have h2 : RowLE y x := (List.sorted_cons.mp hsy).1 x hxys'
        have hkey : x.rsid = y.rsid := str_le_antisymm _ _ h1 h2
        have hndy : ((y :: ys').map SnpRow.rsid).Nodup :=
          ((hperm.map SnpRow.rsid).nodup_iff).mp hnd
        have hmemmap : x.rsid ∈ ys'.map SnpRow.rsid := List.mem_map_of_mem _ hxys'
        rw [hkey] at hmemmap
        exact (List.nodup_cons.mp hndy).1 hmemmap
      subst hxy
      rw [sorted_nodup_key_unique xs' ys' hperm.cons_inv
        (List.sorted_cons.mp hsx).2 (List.sorted_cons.mp hsy).2
        (List.nodup_cons.mp (by simpa using hnd)).2]

/-- Canonicalisation is invariant under any change of the input that leaves
the retained (non-i-rsid) parsed rows the same up to permutation, provided
the retained rsids are duplicate-free. -/
lemma canonical_eq_of_perm (rows1 rows2 : List SnpRow)
    (hperm : (retained_rows rows1).Perm (retained_rows rows2))
    (hnd : ((retained_rows rows1).map SnpRow.rsid).Nodup) :
    canonical_of_rows rows1 = canonical_of_rows rows2 := by
  rw [canonical_of_rows, canonical_of_rows]
  have hsort : List.insertionSort RowLE (retained_rows rows1) =
      List.insertionSort RowLE (retained_rows rows2) := by
    apply sorted_nodup_key_unique
    · exact (List.perm_insertionSort RowLE _).trans
        (hperm.trans (List.perm_insertionSort RowLE _).symm)
    · exact List.sorted_insertionSort RowLE _
    · exact List.sorted_insertionSort RowLE _
    · exact (((List.perm_insertionSort RowLE _).map SnpRow.rsid).nodup_iff).mpr hnd
  rw [hsort]

/-! ### Canonical hashing (claim C5): parsing and encoding injectivity -/

lemma contains_false_iff (l : List Char) (c : Char) :
    l.contains c = false ↔ c ∉ l := by
  rw [Bool.eq_false_iff]
  constructor
  · intro h hm; exact h (List.elem_iff.mpr hm)
  · intro h hc; exact h (List.elem_iff.mp hc)

lemma parseCsvLine_comment (c : String) (h : pyStartsWith c "#" = true) :
    parseCsvLine c = none := by
  obtain ⟨t, ht⟩ : ∃ t, c.data = '#' :: t := by
    rw [pyStartsWith] at h
    rcases List.isPrefixOf_iff_prefix.mp h with ⟨t, ht⟩
    exact ⟨t, ht.symm⟩
  have hcontent : dropLineComment c = "" := by
    rw [dropLineComment, ht]
    simp [List.takeWhile_cons]
  rw [parseCsvLine, hcontent]
  rfl

lemma read_csv_tab_comment (pre post : List String) (c : String)
    (h : pyStartsWith c "#" = true) :
    read_csv_tab (pre ++ c :: post) = read_csv_tab (pre ++ post) := by
  rw [read_csv_tab, read_csv_tab, List.filterMap_append, List.filterMap_append,
    List.filterMap_cons_none (parseCsvLine_comment c h)]

lemma splitCharAux_ne_nil (sep : Char) : ∀ (l : List Char), splitCharAux sep l ≠ []
  | [] => by simp [splitCharAux]
  | c :: t => by
    rw [splitCharAux]
    rcases h : splitCharAux sep t with _ | ⟨g, gs⟩
    · dsimp only
      simp
    · dsimp only
      split <;> simp

lemma splitCharAux_free (sep : Char) : ∀ (l : List Char),
    l.contains sep = false → splitCharAux sep l = [l]
  | [], _ => rfl
  | c :: t, h => by
    have hmem : sep ∉ c :: t := (contains_false_iff _ _).mp h
    have hc : ¬ (c = sep) := fun he => hmem (he ▸ List.mem_cons_self c t)
    have ht : t.contains sep = false :=
      (contains_false_iff _ _).mpr (fun hm => hmem (List.mem_cons_of_mem c hm))
    rw [splitCharAux, splitCharAux_free sep t ht]
    simp only []
    rw [if_neg hc]

lemma splitCharAux_append (sep : Char) : ∀ (a t : List Char),
    a.contains sep = false →
    splitCharAux sep (a ++ sep :: t) = a :: splitCharAux sep t
  | [], t, _ => by
    rw [List.nil_append, splitCharAux]
    rcases h : splitCharAux sep t with _ | ⟨g, gs⟩
    · exact absurd h (splitCharAux_ne_nil sep t)
    · dsimp only
      simp
  | c :: a', t, h => by
    have hmem : sep ∉ c :: a' := (contains_false_iff _ _).mp h
    have hc : ¬ (c = sep) := fun he => hmem (he ▸ List.mem_cons_self c a')
    have ha' : a'.contains sep = false :=
      (contains_false_iff _ _).mpr (fun hm => hmem (List.mem_cons_of_mem c hm))
    rw [List.cons_append, splitCharAux, splitCharAux_append sep a' t ha']
    simp only []
    rw [if_neg hc]

lemma pySplit_joinSep : ∀ (xs : List String), xs ≠ [] →
    (∀ s ∈ xs, s.data.contains '|' = false) →
    pySplit (joinSep "|" xs) '|' = xs
  | [], h, _ => absurd rfl h
  | [x], _, hf => by
    rw [joinSep, pySplit, splitCharAux_free '|' x.data (hf x (by simp))]
    rfl
  | x :: y :: ys, _, hf => by
    have hjoin : joinSep "|" (x :: y :: ys) = x ++ "|" ++ joinSep "|" (y :: ys) := rfl
    rw [hjoin, pySplit]
    have hdata : (x ++ "|" ++ joinSep "|" (y :: ys)).data =
        x.data ++ '|' :: (joinSep "|" (y :: ys)).data := by
      rw [String.data_append, String.data_append]
      rw [List.append_assoc]
      rfl
    rw [hdata, splitCharAux_append '|' x.data _ (hf x (by simp))]
    have hih := pySplit_joinSep (y :: ys) (List.cons_ne_nil y ys)
      (fun s hs => hf s (List.mem_cons_of_mem _ hs))
    rw [pySplit] at hih
    simp only [List.map_cons]
    rw [hih]

lemma joinSep_inj (xs ys : List String) (hx : xs ≠ []) (hy : ys ≠ [])
    (hfx : ∀ s ∈ xs, s.data.contains '|' = false)
    (hfy : ∀ s ∈ ys, s.data.contains '|' = false)
    (h : joinSep "|" xs = joinSep "|" ys) : xs = ys := by
  rw [← pySplit_joinSep xs hx hfx, ← pySplit_joinSep ys hy hfy, h]

lemma colon_split : ∀ (a b x y : List Char),
    a.contains ':' = false → b.contains ':' = false →
    a ++ ':' :: x = b ++ ':' :: y → a = b ∧ x = y
  | [], [], x, y, _, _, h => by
    simp only [List.nil_append] at h
    exact ⟨rfl, by injection h⟩
  | [], c :: b', x, y, _, hb, h => by
    simp only [List.nil_append, List.cons_append] at h
    injection h with h1 _
    exact absurd ((contains_false_iff _ _).mp hb)
      (by rw [← h1]; simp [List.mem_cons_self])
  | c :: a', [], x, y, ha, _, h => by
    simp only [List.nil_append, List.cons_append] at h
    injection h with h1 _
    exact absurd ((contains_false_iff _ _).mp ha)
      (by rw [h1]; simp [List.mem_cons_self])
  | c :: a', d :: b', x, y, ha, hb, h => by
    have hmema : ':' ∉ c :: a' := (contains_false_iff _ _).mp ha
    have hmemb : ':' ∉ d :: b' := (contains_false_iff _ _).mp hb
    simp only [List.cons_append] at h
    injection h with h1 h2
    subst h1
    obtain ⟨he, hx⟩ := colon_split a' b' x y
      ((contains_false_iff _ _).mpr (fun hm => hmema (List.mem_cons_of_mem c hm)))
      ((contains_false_iff _ _).mpr (fun hm => hmemb (List.mem_cons_of_mem c hm)))
      h2
    exact ⟨by rw [he], hx⟩

lemma fmt_row_data (s : SnpRow) : (fmt_row s).data =
    s.rsid.data ++ ':' :: (s.chromosome.data ++ ':' :: (s.position.data ++ ':' :: s.genotype.data)) := by
  rw [fmt_row]
  simp [String.data_append, List.append_assoc]

lemma fmt_row_data_ne_nil (s : SnpRow) : (fmt_row s).data ≠ [] := by
  rw [fmt_row_data]
  rcases h : s.rsid.data with _ | _ <;> simp

lemma row_fields_clean_spec (s : SnpRow) (h : row_fields_clean s = true) :
    '|' ∉ s.rsid.data ∧ '|' ∉ s.chromosome.data ∧ '|' ∉ s.position.data ∧
      '|' ∉ s.genotype.data ∧ ':' ∉ s.rsid.data ∧ ':' ∉ s.chromosome.data ∧
      ':' ∉ s.position.data := by
  rw [row_fields_clean] at h
  simp only [Bool.and_eq_true, noChar, Bool.not_eq_true'] at h
  obtain ⟨⟨⟨⟨⟨⟨h1, h2⟩, h3⟩, h4⟩, h5⟩, h6⟩, h7⟩ := h
  exact ⟨(contains_false_iff _ _).mp h1, (contains_false_iff _ _).mp h2,
    (contains_false_iff _ _).mp h3, (contains_false_iff _ _).mp h4,
    (contains_false_iff _ _).mp h5, (contains_false_iff _ _).mp h6,
    (contains_false_iff _ _).mp h7⟩

lemma fmt_row_pipe_free (s : SnpRow) (h : row_fields_clean s = true) :
    (fmt_row s).data.contains '|' = false := by
  obtain ⟨h1, h2, h3, h4, _, _, _⟩ := row_fields_clean_spec s h
  apply (contains_false_iff _ _).mpr
  rw [fmt_row_data]
  simp only [List.mem_append, List.mem_cons]
  rintro (hm | hm | hm | hm | hm | hm | hm)
  · exact h1 hm
  · exact absurd hm (by decide)
  · exact h2 hm
  · exact absurd hm (by decide)
  · exact h3 hm
  · exact absurd hm (by decide)
  · exact h4 hm

lemma fmt_row_inj (a b : SnpRow) (ha : row_fields_clean a = true)
    (hb : row_fields_clean b = true) (h : fmt_row a = fmt_row b) : a = b := by
  obtain ⟨_, _, _, _, ha5, ha6, ha7⟩ := row_fields_clean_spec a ha
  obtain ⟨_, _, _, _, hb5, hb6, hb7⟩ := row_fields_clean_spec b hb
  have hd := String.ext_iff.mp h
  rw [fmt_row_data, fmt_row_data] at hd
  obtain ⟨h1, hrest1⟩ := colon_split _ _ _ _
    ((contains_false_iff _ _).mpr ha5) ((contains_false_iff _ _).mpr hb5) hd
  obtain ⟨h2, hrest2⟩ := colon_split _ _ _ _
    ((contains_false_iff _ _).mpr ha6) ((contains_false_iff _ _).mpr hb6) hrest1
  obtain ⟨h3, h4⟩ := colon_split _ _ _ _
    ((contains_false_iff _ _).mpr ha7) ((contains_false_iff _ _).mpr hb7) hrest2
  obtain ⟨ar, ac, ap, ag⟩ := a
  obtain ⟨br, bc, bp, bg⟩ := b
  simp only [] at h1 h2 h3 h4
  rw [String.ext h1, String.ext h2, String.ext h3, String.ext h4]

lemma row_fields_clean_intro (s : SnpRow)
    (h1 : '|' ∉ s.rsid.data) (h2 : '|' ∉ s.chromosome.data)
    (h3 : '|' ∉ s.position.data) (h4 : '|' ∉ s.genotype.data)
    (h5 : ':' ∉ s.rsid.data) (h6 : ':' ∉ s.chromosome.data)
    (h7 : ':' ∉ s.position.data) : row_fields_clean s = true := by
  rw [row_fields_clean]
  simp only [noChar, Bool.and_eq_true, Bool.not_eq_true']
  exact ⟨⟨⟨⟨⟨⟨(contains_false_iff _ _).mpr h1, (contains_false_iff _ _).mpr h2⟩,
    (contains_false_iff _ _).mpr h3⟩, (contains_false_iff _ _).mpr h4⟩,
    (contains_false_iff _ _).mpr h5⟩, (contains_false_iff _ _).mpr h6⟩,
    (contains_false_iff _ _).mpr h7⟩

/-- Editing the genotype of one retained record (duplicate-free rsids,
fields over the encoding-safe alphabet) always changes the canonical
pre-hash string. -/
lemma canonical_ne_of_genotype_edit (rows : List SnpRow) (i : ℕ)
    (hi : i < rows.length) (g' : String)
    (hnd : (rows.map SnpRow.rsid).Nodup)
    (hclean : ∀ s ∈ rows, row_fields_clean s = true)
    (hcleang : '|' ∉ g'.data)
    (hret : pyStartsWith (rows.get ⟨i, hi⟩).rsid "i" = false)
    (hg : g' ≠ (rows.get ⟨i, hi⟩).genotype) :
    canonical_of_rows rows ≠
      canonical_of_rows (rows.set i { rows.get ⟨i, hi⟩ with genotype := g' }) := by
  intro heq
  have hrmem : rows.get ⟨i, hi⟩ ∈ rows := List.get_mem rows i hi
  have hclean_r := hclean _ hrmem
  have hne : ({ rows.get ⟨i, hi⟩ with genotype := g' } : SnpRow) ≠ rows.get ⟨i, hi⟩ := by
    intro he
    exact hg (by simpa using congrArg SnpRow.genotype he)
  have hclean' : ∀ s ∈ rows.set i { rows.get ⟨i, hi⟩ with genotype := g' },
      row_fields_clean s = true := by
    intro s hs
    rcases List.mem_or_eq_of_mem_set hs with h | h
    · exact hclean s h
    · subst h
      obtain ⟨c1, c2, c3, _, c5, c6, c7⟩ := row_fields_clean_spec _ hclean_r
      exact row_fields_clean_intro _ c1 c2 c3 hcleang c5 c6 c7
  rw [canonical_of_rows, canonical_of_rows] at heq
  have hs1perm : (List.insertionSort RowLE (retained_rows rows)).Perm
      (retained_rows rows) := List.perm_insertionSort _ _
  have hs2perm : (List.insertionSort RowLE
        (retained_rows (rows.set i { rows.get ⟨i, hi⟩ with genotype := g' }))).Perm
      (retained_rows (rows.set i { rows.get ⟨i, hi⟩ with genotype := g' })) :=
    List.perm_insertionSort _ _
  have hrret : rows.get ⟨i, hi⟩ ∈ retained_rows rows :=
    List.mem_filter.mpr ⟨hrmem, by rw [hret]; rfl⟩
  have hrs1 : rows.get ⟨i, hi⟩ ∈ List.insertionSort RowLE (retained_rows rows) :=
    hs1perm.mem_iff.mpr hrret
  have hf1 : ∀ t ∈ (List.insertionSort RowLE (retained_rows rows)).map fmt_row,
      t.data.contains '|' = false := by
    intro t ht
    rcases List.mem_map.mp ht with ⟨s, hs, rfl⟩
    exact fmt_row_pipe_free s
      (hclean s (List.mem_of_mem_filter (hs1perm.mem_iff.mp hs)))
  have hf2 : ∀ t ∈ (List.insertionSort RowLE
        (retained_rows (rows.set i { rows.get ⟨i, hi⟩ with genotype := g' }))).map fmt_row,
      t.data.contains '|' = false := by
    intro t ht
    rcases List.mem_map.mp ht with ⟨s, hs, rfl⟩
    exact fmt_row_pipe_free s
      (hclean' s (List.mem_of_mem_filter (hs2perm.mem_iff.mp hs)))
  have hne1 : (List.insertionSort RowLE (retained_rows rows)).map fmt_row ≠ [] := by
    simp only [ne_eq, List.map_eq_nil_iff]
    exact List.ne_nil_of_mem hrs1
  have happ := congrArg (fun s => pySplit s '|') heq
  simp only [] at happ
  rw [pySplit_joinSep _ hne1 hf1] at happ
  by_cases h2 : List.insertionSort RowLE
      (retained_rows (rows.set i { rows.get ⟨i, hi⟩ with genotype := g' })) = []
  · rw [h2] at happ
    have hempty : ("" : String) ∈ (List.insertionSort RowLE (retained_rows rows)).map fmt_row := by
      rw [happ]
      decide
    rcases List.mem_map.mp hempty with ⟨s, _, hfmt⟩
    exact fmt_row_data_ne_nil s (by rw [hfmt])
  · have hne2 : (List.insertionSort RowLE
        (retained_rows (rows.set i { rows.get ⟨i, hi⟩ with genotype := g' }))).map fmt_row ≠ [] := by
      simp only [ne_eq, List.map_eq_nil_iff]
      exact h2
    rw [pySplit_joinSep _ hne2 hf2] at happ
    have hfr : fmt_row (rows.get ⟨i, hi⟩) ∈ (List.insertionSort RowLE
        (retained_rows (rows.set i { rows.get ⟨i, hi⟩ with genotype := g' }))).map fmt_row := by
      rw [← happ]
      exact List.mem_map_of_mem _ hrs1
    rcases List.mem_map.mp hfr with ⟨s, hs, hfmt⟩
    have hsrows' : s ∈ rows.set i { rows.get ⟨i, hi⟩ with genotype := g' } :=
      List.mem_of_mem_filter (hs2perm.mem_iff.mp hs)
    have hseq : s = rows.get ⟨i, hi⟩ :=
      fmt_row_inj s _ (hclean' s hsrows') hclean_r hfmt
    rw [hseq] at hsrows'
    rcases List.mem_iff_get.mp hsrows' with ⟨⟨j, hj⟩, hget⟩
    have hj' : j < rows.length := by simpa using hj
    rw [List.get_eq_getElem, List.getElem_set] at hget
    by_cases hij : i = j
    · rw [if_pos hij] at hget
      exact hne hget
    · rw [if_neg hij] at hget
      have hinj := List.nodup_iff_injective_get.mp hnd
      have hjm : j < (rows.map SnpRow.rsid).length := by simpa using hj'
      have him : i < (rows.map SnpRow.rsid).length := by simpa using hi
      have hkeys : (rows.map SnpRow.rsid).get ⟨j, hjm⟩ =
          (rows.map SnpRow.rsid).get ⟨i, him⟩ := by
        simp only [List.get_eq_getElem, List.getElem_map]
        rw [show rows[j] = rows.get ⟨i, hi⟩ from hget]
        rfl
      have := hinj hkeys
      exact hij (by simpa using this.symm)

/-- C5 counterexample: trailing whitespace on a data line lands in the
genotype column and changes the hash.  The second file's only line is the
first file's line with one trailing space (same logical row: the stripped
lines coincide), yet the SHA-256 content hashes differ. -/
theorem claim5_counterexample :
    "rs1\t1\t100\tAA " = "rs1\t1\t100\tAA" ++ " " ∧
      pyStrip "rs1\t1\t100\tAA " = pyStrip "rs1\t1\t100\tAA" ∧
      hash_23andme_file ["rs1\t1\t100\tAA "] ≠ hash_23andme_file ["rs1\t1\t100\tAA"] :=
  ⟨rfl, by decide, by decide⟩

/-- C5 amended: the hash is SHA-256 over the canonical string built by
dropping i-rsid records, sorting the rest by rsid and joining
`rsid:chromosome:position:genotype` with `|`.  It is invariant under any
reordering of the parsed retained rows (duplicate-free rsids) and under
adding or removing comment lines, but NOT under per-line trailing
whitespace, which becomes part of the genotype field (see the
counterexample); and any single genotype edit of a retained record changes
the canonical pre-hash string. -/
theorem claim5_amended_hash_canonicalization :
    (∀ (l1 l2 : List String),
      (retained_rows (read_csv_tab l1)).Perm (retained_rows (read_csv_tab l2)) →
      ((retained_rows (read_csv_tab l1)).map SnpRow.rsid).Nodup →
      hash_23andme_file l1 = hash_23andme_file l2) ∧
    (∀ (pre post : List String) (c : String), pyStartsWith c "#" = true →
      hash_23andme_file (pre ++ c :: post) = hash_23andme_file (pre ++ post)) ∧
    (∀ (rows : List SnpRow) (i : ℕ) (hi : i < rows.length) (g' : String),
      (rows.map SnpRow.rsid).Nodup →
      (∀ s ∈ rows, row_fields_clean s = true) →
      '|' ∉ g'.data →
      pyStartsWith (rows.get ⟨i, hi⟩).rsid "i" = false →
      g' ≠ (rows.get ⟨i, hi⟩).genotype →
      canonical_of_rows rows ≠
        canonical_of_rows (rows.set i { rows.get ⟨i, hi⟩ with genotype := g' })) := by
  refine ⟨?_, ?_, ?_⟩
  · intro l1 l2 hperm hnd
    rw [hash_23andme_file, hash_23andme_file, canonical_eq_of_perm _ _ hperm hnd]
  · intro pre post c hc
    rw [hash_23andme_file, hash_23andme_file, read_csv_tab_comment pre post c hc]
  · intro rows i hi g' hnd hclean hcl hret hg
    exact canonical_ne_of_genotype_edit rows i hi g' hnd hclean hcl hret hg

/-- C5 witness: data-line reordering and comment insertion leave the hash
unchanged on concrete files, and a concrete genotype edit changes the
canonical string. -/
theorem claim5_witness :
    hash_23andme_file ["# c", "rs2\t1\t2\tAA", "rs1\t1\t3\tCC"] =
        hash_23andme_file ["rs1\t1\t3\tCC", "rs2\t1\t2\tAA"] ∧
      hash_23andme_file ([] ++ "# hello" :: ["rs1\t1\t3\tCC"]) =
        hash_23andme_file ([] ++ ["rs1\t1\t3\tCC"]) ∧
      canonical_of_rows [⟨"rs1", "1", "3", "CC"⟩] ≠
        canonical_of_rows ([⟨"rs1", "1", "3", "CC"⟩].set 0
          { ([⟨"rs1", "1", "3", "CC"⟩] : List SnpRow).get ⟨0, by decide⟩ with genotype := "TT" }) :=
  ⟨claim5_amended_hash_canonicalization.1 _ _ (by decide) (by decide),
    claim5_amended_hash_canonicalization.2.1 [] ["rs1\t1\t3\tCC"] "# hello" (by decide),
    claim5_amended_hash_canonicalization.2.2 [⟨"rs1", "1", "3", "CC"⟩] 0 (by decide) "TT"
      (by decide) (by decide) (by decide) (by decide) (by decide)⟩

end DnaVana
